import Mathlib

set_option autoImplicit false

/-!
Shallow embedding of the MEXC sniper bot core: the pattern-discovery engine,
the upstream adapter, the cache service and the durable workflow steps, each
translated from the Python source, together with theorems settling the
specification claims.

Conventions used throughout:
* Python floats arising from epoch-millisecond arithmetic are modelled as
  rationals; every input is an integral number of milliseconds, so this
  arithmetic is exact in the source as well.
* Instants are rationals counting seconds since the Unix epoch (UTC).
* Optional Python values are Option values; Python truthiness is modelled
  explicitly where the source relies on it.
-/

/-- A JSON-like Python value as it appears in the dicts handled by the core. -/
inductive PyVal where
  | str (s : String)
  | num (q : ℚ)
  | bool (b : Bool)
  | none
deriving DecidableEq, Repr

/-- Python truthiness of an optional string: None and the empty string are falsy. -/
def pyTruthyStr : Option String → Bool
  | Option.none => false
  | Option.some s => !(s == "")

/-- Python `x or d` for an optional string left operand. -/
def pyOrStr : Option String → String → String
  | Option.none, d => d
  | Option.some s, d => if s == "" then d else s

/-- Python `x or d` for an optional integer left operand (0 is falsy). -/
def pyOrInt : Option Int → Int → Int
  | Option.none, d => d
  | Option.some n, d => if n == 0 then d else n

/-- Calendar entry from the MEXC calendar feed (models.CalendarEntryApi). -/
structure CalendarEntryApi where
  vcoinId : String
  symbol : String
  projectName : String
  firstOpenTime : Int
deriving DecidableEq, Repr

/-- CalendarEntryApi.launch_datetime: the announced launch instant in seconds. -/
def CalendarEntryApi.launch_datetime (e : CalendarEntryApi) : ℚ :=
  (e.firstOpenTime : ℚ) / 1000

/-- Symbol entry from the MEXC symbolsV2 feed (models.SymbolV2EntryApi). -/
structure SymbolV2EntryApi where
  cd : String
  ca : Option String := Option.none
  ps : Option Int := Option.none
  qs : Option Int := Option.none
  sts : Int
  st : Int
  tt : Int
  ot : Option Int := Option.none
deriving DecidableEq, Repr

/-- matches_ready_pattern: the three state codes equal the given triple. -/
def SymbolV2EntryApi.matches_ready_pattern (s : SymbolV2EntryApi)
    (p : Int × Int × Int) : Bool :=
  (s.sts, s.st, s.tt) == p

/-- has_complete_data, translated from
`all([self.ca, self.ps is not None, self.qs is not None, self.ot is not None])`:
the contract is tested by Python truthiness while the three numeric fields are
tested against None only. -/
def SymbolV2EntryApi.has_complete_data (s : SymbolV2EntryApi) : Bool :=
  pyTruthyStr s.ca && s.ps.isSome && s.qs.isSome && s.ot.isSome

/-- launch_datetime_from_ot, translated from `if self.ot: ...`: the guard is
Python truthiness, so an ot of 0 yields None. -/
def SymbolV2EntryApi.launch_datetime_from_ot (s : SymbolV2EntryApi) : Option ℚ :=
  match s.ot with
  | Option.some n => if n == 0 then Option.none else Option.some ((n : ℚ) / 1000)
  | Option.none => Option.none

namespace settings

def READY_STATE_PATTERN : Int × Int × Int := (2, 2, 4)

def TARGET_ADVANCE_HOURS : ℚ := 7 / 2

def DEFAULT_BUY_AMOUNT_USDT : ℚ := 100

end settings

/-- Durable row of the monitored_listings table (models.MonitoredListing). -/
structure MonitoredListing where
  vcoin_id : String
  symbol_name : String
  project_name : String
  announced_launch_time_ms : Int
  announced_launch_datetime_utc : ℚ
  status : String := "monitoring"
deriving DecidableEq, Repr

/-- Durable row of the snipe_targets table (models.SnipeTarget); the JSON
order-params column is modelled in its decoded form. -/
structure SnipeTarget where
  id : Option Nat
  vcoin_id : String
  mexc_symbol_contract : String
  price_precision : Int
  quantity_precision : Int
  actual_launch_time_ms : Int
  actual_launch_datetime_utc : ℚ
  discovered_at_utc : ℚ
  hours_advance_notice : ℚ
  intended_buy_amount_usdt : ℚ
  execution_order_params : List (String × PyVal)
  execution_status : String := "pending"
deriving DecidableEq, Repr

/-- The durable store visible to the discovery engine. -/
structure DbState where
  listings : List MonitoredListing
  targets : List SnipeTarget
  nextTargetId : Nat
deriving DecidableEq, Repr

/-- database.get_monitored_listing: lookup by vcoin_id. -/
def get_monitored_listing (db : DbState) (vcoin_id : String) :
    Option MonitoredListing :=
  db.listings.find? (fun l => l.vcoin_id == vcoin_id)

/-- database.get_snipe_target: lookup by vcoin_id. -/
def get_snipe_target (db : DbState) (vcoin_id : String) : Option SnipeTarget :=
  db.targets.find? (fun t => t.vcoin_id == vcoin_id)

/-- database.get_monitoring_listings: all listings whose status is monitoring. -/
def get_monitoring_listings (db : DbState) : List MonitoredListing :=
  db.listings.filter (fun l => l.status == "monitoring")

/-- database.get_pending_snipe_targets: targets with status pending or scheduled. -/
def get_pending_snipe_targets (db : DbState) : List SnipeTarget :=
  db.targets.filter
    (fun t => t.execution_status == "pending" || t.execution_status == "scheduled")

/-- The listing-status assignment performed inside the ready-target policy
(`listing.status = "ready"` followed by session.add). -/
def markListingReady (db : DbState) (vcoin_id : String) : DbState :=
  { db with
    listings := db.listings.map
      (fun l => if l.vcoin_id == vcoin_id then { l with status := "ready" } else l) }

/-- The row-level effect of database.update_snipe_target_status on one target. -/
def updTarget (target_id : Nat) (status : String) (t : SnipeTarget) : SnipeTarget :=
  if t.id == Option.some target_id then { t with execution_status := status } else t

/-- database.update_snipe_target_status restricted to the status field, as the
scheduling step uses it: update the row with the given primary key. -/
def update_snipe_target_status (db : DbState) (target_id : Nat) (status : String) :
    DbState :=
  { db with targets := db.targets.map (updTarget target_id status) }

/-- PatternDiscoveryEngine._create_ready_target: the ready-target policy.
Returns the updated store and the created target, or none when any of the
guards aborts the creation. -/
def createReadyTarget (db : DbState) (now : ℚ) (listing : MonitoredListing)
    (symbol : SymbolV2EntryApi) : DbState × Option SnipeTarget :=
  match get_snipe_target db listing.vcoin_id with
  | Option.some _ => (db, Option.none)
  | Option.none =>
    match symbol.launch_datetime_from_ot with
    | Option.none => (db, Option.none)
    | Option.some actual_launch_time =>
      let advance_notice_seconds := actual_launch_time - now
      let advance_notice_hours := advance_notice_seconds / 3600
      if advance_notice_hours < settings.TARGET_ADVANCE_HOURS then
        (db, Option.none)
      else if !(pyTruthyStr symbol.ca) || symbol.ps.isNone || symbol.qs.isNone
          || symbol.ot.isNone then
        (db, Option.none)
      else
        let order_params : List (String × PyVal) :=
          [("symbol", PyVal.str (symbol.ca.getD "")),
           ("side", PyVal.str "BUY"),
           ("type", PyVal.str "MARKET"),
           ("quoteOrderQty", PyVal.num settings.DEFAULT_BUY_AMOUNT_USDT)]
        let target : SnipeTarget :=
          { id := Option.some db.nextTargetId
            vcoin_id := listing.vcoin_id
            mexc_symbol_contract := pyOrStr symbol.ca "UNKNOWN"
            price_precision := pyOrInt symbol.ps 8
            quantity_precision := pyOrInt symbol.qs 6
            actual_launch_time_ms := pyOrInt symbol.ot 0
            actual_launch_datetime_utc := actual_launch_time
            discovered_at_utc := now
            hours_advance_notice := advance_notice_hours
            intended_buy_amount_usdt := settings.DEFAULT_BUY_AMOUNT_USDT
            execution_order_params := order_params
            execution_status := "pending" }
        let db1 : DbState :=
          { db with targets := db.targets ++ [target], nextTargetId := db.nextTargetId + 1 }
        (markListingReady db1 listing.vcoin_id, Option.some target)

/-- The advance notice, in hours, that the policy computes for a symbol whose
open time is taken at face value (ot treated as a plain millisecond instant). -/
def advanceHours (symbol : SymbolV2EntryApi) (now : ℚ) : ℚ :=
  (((symbol.ot.getD 0 : Int) : ℚ) / 1000 - now) / 3600

section ClaimProofsOne

/-- C2: every snipe target created by the ready-target policy has order
parameters with exactly the keys symbol, side, type, quoteOrderQty, with side
BUY, type MARKET, and quoteOrderQty equal to the target's intended buy amount
(the configured default buy amount) exactly. -/
theorem C2_order_params_exact (db : DbState) (now : ℚ) (listing : MonitoredListing)
    (symbol : SymbolV2EntryApi) (db1 : DbState) (t : SnipeTarget)
    (h : createReadyTarget db now listing symbol = (db1, Option.some t)) :
    t.execution_order_params.map Prod.fst = ["symbol", "side", "type", "quoteOrderQty"] ∧
    t.execution_order_params.lookup "side" = Option.some (PyVal.str "BUY") ∧
    t.execution_order_params.lookup "type" = Option.some (PyVal.str "MARKET") ∧
    t.execution_order_params.lookup "quoteOrderQty" =
      Option.some (PyVal.num t.intended_buy_amount_usdt) ∧
    t.intended_buy_amount_usdt = settings.DEFAULT_BUY_AMOUNT_USDT := by
  simp only [createReadyTarget] at h
  split at h
  · simp at h
  · split at h
    · simp at h
    · split at h
      · simp at h
      · split at h
        · simp at h
        · simp only [Prod.mk.injEq, Option.some.injEq] at h
          obtain ⟨-, ht⟩ := h
          subst ht
          exact ⟨rfl, rfl, rfl, rfl, rfl⟩

def wDb : DbState := { listings := [], targets := [], nextTargetId := 0 }

def wListing : MonitoredListing :=
  { vcoin_id := "A", symbol_name := "AUSDT", project_name := "ProjA",
    announced_launch_time_ms := 100000000, announced_launch_datetime_utc := 100000,
    status := "monitoring" }

def wSymbol : SymbolV2EntryApi :=
  { cd := "A", ca := Option.some "AUSDT", ps := Option.some 8, qs := Option.some 6,
    sts := 2, st := 2, tt := 4, ot := Option.some 100000000 }

def wTarget : SnipeTarget :=
  { id := Option.some 0, vcoin_id := "A", mexc_symbol_contract := "AUSDT",
    price_precision := 8, quantity_precision := 6,
    actual_launch_time_ms := 100000000, actual_launch_datetime_utc := 100000,
    discovered_at_utc := 0, hours_advance_notice := 250 / 9,
    intended_buy_amount_usdt := 100,
    execution_order_params :=
      [("symbol", PyVal.str "AUSDT"), ("side", PyVal.str "BUY"),
       ("type", PyVal.str "MARKET"), ("quoteOrderQty", PyVal.num 100)],
    execution_status := "pending" }

theorem wCreate_eval :
    createReadyTarget wDb 0 wListing wSymbol =
      ({ listings := [], targets := [wTarget], nextTargetId := 1 }, Option.some wTarget) := by
  norm_num [createReadyTarget, get_snipe_target, markListingReady, wDb, wListing, wSymbol,
    wTarget, SymbolV2EntryApi.launch_datetime_from_ot, pyTruthyStr, pyOrStr, pyOrInt,
    settings.TARGET_ADVANCE_HOURS, settings.DEFAULT_BUY_AMOUNT_USDT]
  simp

/-- Witness for C2 at a concrete ready symbol. -/
theorem C2_order_params_exact_witness :
    wTarget.execution_order_params.map Prod.fst = ["symbol", "side", "type", "quoteOrderQty"] ∧
    wTarget.execution_order_params.lookup "side" = Option.some (PyVal.str "BUY") ∧
    wTarget.execution_order_params.lookup "type" = Option.some (PyVal.str "MARKET") ∧
    wTarget.execution_order_params.lookup "quoteOrderQty" =
      Option.some (PyVal.num wTarget.intended_buy_amount_usdt) ∧
    wTarget.intended_buy_amount_usdt = settings.DEFAULT_BUY_AMOUNT_USDT :=
  C2_order_params_exact wDb 0 wListing wSymbol
    { listings := [], targets := [wTarget], nextTargetId := 1 } wTarget wCreate_eval

/-- C3: with no pre-existing target, a complete-data symbol, and a nonnegative
current time, the ready-target policy creates a target exactly when the
advance notice in hours is at least 3.5 (non-strict). -/
theorem C3_advance_threshold_iff (db : DbState) (now : ℚ) (listing : MonitoredListing)
    (symbol : SymbolV2EntryApi)
    (hno : get_snipe_target db listing.vcoin_id = Option.none)
    (hcomplete : symbol.has_complete_data = true)
    (hnow : 0 ≤ now) :
    (createReadyTarget db now listing symbol).2.isSome = true ↔
      settings.TARGET_ADVANCE_HOURS ≤ advanceHours symbol now := by
  have hparts := hcomplete
  simp only [SymbolV2EntryApi.has_complete_data, Bool.and_eq_true] at hparts
  obtain ⟨⟨⟨hca, hps⟩, hqs⟩, hot⟩ := hparts
  cases hotv : symbol.ot with
  | none => rw [hotv] at hot; simp at hot
  | some n =>
    by_cases hn : n = 0
    · subst hn
      have hred : createReadyTarget db now listing symbol = (db, Option.none) := by
        simp [createReadyTarget, SymbolV2EntryApi.launch_datetime_from_ot, hotv, hno]
      rw [hred]
      simp only [Option.isSome_none, Bool.false_eq_true, false_iff, not_le]
      have hval : advanceHours symbol now = -(now / 3600) := by
        simp only [advanceHours, hotv, Option.getD_some, Int.cast_zero]
        ring
      rw [hval]
      have hnn := div_nonneg hnow (by norm_num : (0:ℚ) ≤ 3600)
      simp only [settings.TARGET_ADVANCE_HOURS]
      linarith
    · have hL : symbol.launch_datetime_from_ot = Option.some ((n : ℚ) / 1000) := by
        simp [SymbolV2EntryApi.launch_datetime_from_ot, hotv, hn]
      have hadveq : ((n : ℚ) / 1000 - now) / 3600 = advanceHours symbol now := by
        simp [advanceHours, hotv]
      by_cases hlt : ((n : ℚ) / 1000 - now) / 3600 < settings.TARGET_ADVANCE_HOURS
      · have hred : createReadyTarget db now listing symbol = (db, Option.none) := by
          simp only [createReadyTarget, hno, hL]
          rw [if_pos hlt]
        rw [hred]
        simp only [Option.isSome_none, Bool.false_eq_true, false_iff, not_le]
        rw [hadveq] at hlt
        exact hlt
      · have hguard : (!(pyTruthyStr symbol.ca) || symbol.ps.isNone || symbol.qs.isNone
            || symbol.ot.isNone) = false := by
          rw [hca, hotv]
          cases hpv : symbol.ps with
          | none => rw [hpv] at hps; simp at hps
          | some p =>
            cases hqv : symbol.qs with
            | none => rw [hqv] at hqs; simp at hqs
            | some q => simp
        have hguard' : ¬((!(pyTruthyStr symbol.ca) || symbol.ps.isNone || symbol.qs.isNone
            || symbol.ot.isNone) = true) := by
          rw [hguard]
          simp
        have hred : (createReadyTarget db now listing symbol).2.isSome = true := by
          simp only [createReadyTarget, hno, hL]
          rw [if_neg hlt, if_neg hguard']
          simp
        rw [hred]
        simp only [true_iff]
        rw [← hadveq]
        exact not_lt.mp hlt

/-- Witness for C3 at a concrete complete-data symbol far from launch. -/
theorem C3_advance_threshold_iff_witness :
    (createReadyTarget wDb 0 wListing wSymbol).2.isSome = true :=
  (C3_advance_threshold_iff wDb 0 wListing wSymbol rfl rfl (le_refl 0)).mpr
    (by norm_num [advanceHours, wSymbol, settings.TARGET_ADVANCE_HOURS])

end ClaimProofsOne

section ClaimProofsTwo

def c6Sym : SymbolV2EntryApi :=
  { cd := "X", ca := Option.some "", ps := Option.some 8, qs := Option.some 6,
    sts := 2, st := 2, tt := 4, ot := Option.some 1 }

/-- C6 counterexample: a record whose four fields are all present (the
contract being the empty string) fails has_complete_data, so presence of the
four fields is not equivalent to the predicate. -/
theorem C6_counterexample :
    (c6Sym.ca.isSome && c6Sym.ps.isSome && c6Sym.qs.isSome && c6Sym.ot.isSome) = true ∧
    c6Sym.has_complete_data = false := by
  constructor
  · rfl
  · rfl

/-- C6 amended: has_complete_data holds exactly when the contract is present
and non-empty and price_scale, qty_scale and open_time_ms are present (an
open_time_ms equal to 0 still counts as present). -/
theorem C6_amended_characterisation (s : SymbolV2EntryApi) :
    s.has_complete_data = true ↔
      (s.ca ≠ Option.none ∧ s.ca ≠ Option.some "" ∧ s.ps ≠ Option.none ∧
       s.qs ≠ Option.none ∧ s.ot ≠ Option.none) := by
  cases hca : s.ca with
  | none =>
    simp [SymbolV2EntryApi.has_complete_data, pyTruthyStr, hca]
  | some c =>
    by_cases hc : c = ""
    · subst hc
      simp [SymbolV2EntryApi.has_complete_data, pyTruthyStr, hca]
    · simp [SymbolV2EntryApi.has_complete_data, pyTruthyStr, hca, hc,
        Option.isSome_iff_ne_none, and_assoc]

def c10Sym : SymbolV2EntryApi :=
  { cd := "Y", ca := Option.some "", ps := Option.some 8, qs := Option.some 6,
    sts := 2, st := 2, tt := 4, ot := Option.some 0 }

/-- C10 counterexample: with ot equal to 0 and ca, ps, qs all present but the
contract empty, has_complete_data is false, contradicting the claim that it
is true for every such record. -/
theorem C10_counterexample :
    c10Sym.ot = Option.some 0 ∧ c10Sym.ca.isSome = true ∧ c10Sym.ps.isSome = true ∧
    c10Sym.qs.isSome = true ∧ c10Sym.has_complete_data = false := by
  refine ⟨rfl, rfl, rfl, rfl, rfl⟩

/-- C10 amended: for every symbol record with ot equal to 0 whose contract is
present and non-empty and whose ps and qs are present, has_complete_data is
true, yet launch_datetime_from_ot is None, and the ready-target policy
returns no target for it in any store state. -/
theorem C10_ot_zero_no_target (s : SymbolV2EntryApi) (db : DbState) (now : ℚ)
    (listing : MonitoredListing)
    (hot : s.ot = Option.some 0)
    (hca : s.ca ≠ Option.none) (hca2 : s.ca ≠ Option.some "")
    (hps : s.ps ≠ Option.none) (hqs : s.qs ≠ Option.none) :
    s.has_complete_data = true ∧ s.launch_datetime_from_ot = Option.none ∧
    (createReadyTarget db now listing s).2 = Option.none := by
  have hlaunch : s.launch_datetime_from_ot = Option.none := by
    simp [SymbolV2EntryApi.launch_datetime_from_ot, hot]
  refine ⟨?_, hlaunch, ?_⟩
  · rw [C6_amended_characterisation]
    exact ⟨hca, hca2, hps, hqs, by rw [hot]; exact Option.some_ne_none 0⟩
  · unfold createReadyTarget
    cases hexist : get_snipe_target db listing.vcoin_id with
    | some t => simp
    | none => simp [hlaunch]

def c10GoodSym : SymbolV2EntryApi :=
  { cd := "Z", ca := Option.some "ZUSDT", ps := Option.some 8, qs := Option.some 6,
    sts := 2, st := 2, tt := 4, ot := Option.some 0 }

/-- Witness for the amended C10 at a concrete record with a non-empty contract. -/
theorem C10_ot_zero_no_target_witness :
    c10GoodSym.has_complete_data = true ∧
    c10GoodSym.launch_datetime_from_ot = Option.none ∧
    (createReadyTarget wDb 0 wListing c10GoodSym).2 = Option.none :=
  C10_ot_zero_no_target c10GoodSym wDb 0 wListing rfl
    (by simp [c10GoodSym]) (by simp [c10GoodSym]) (by simp [c10GoodSym]) (by simp [c10GoodSym])

end ClaimProofsTwo

/-- The per-row body of PatternDiscoveryEngine._schedule_ready_targets: rows
still pending (and flushed, so carrying a primary key) are marked scheduled
when strictly more than 10 seconds remain until launch, missed otherwise. -/
def schedStep (now : ℚ) (acc : DbState × Nat) (target : SnipeTarget) : DbState × Nat :=
  match target.id with
  | Option.none => acc
  | Option.some tid =>
    if target.execution_status == "pending" then
      if target.actual_launch_datetime_utc - now > 10 then
        (update_snipe_target_status acc.1 tid "scheduled", acc.2 + 1)
      else
        (update_snipe_target_status acc.1 tid "missed", acc.2)
    else acc

/-- PatternDiscoveryEngine._schedule_ready_targets: fold the per-row body over
the snapshot of pending-or-scheduled targets; returns store and count. -/
def scheduleReadyTargets (db : DbState) (now : ℚ) : DbState × Nat :=
  (get_pending_snipe_targets db).foldl (schedStep now) (db, 0)

/-- The execution status of the target with the given primary key. -/
def statusOfTarget (db : DbState) (tid : Nat) : Option String :=
  (db.targets.find? (fun t => t.id == Option.some tid)).map
    (fun t => t.execution_status)

section ScheduleLemmas

theorem updTarget_id (tid : Nat) (s : String) (t : SnipeTarget) :
    (updTarget tid s t).id = t.id := by
  unfold updTarget
  split <;> rfl

theorem statusOfTarget_update (db : DbState) (tid tid' : Nat) (s : String) :
    statusOfTarget (update_snipe_target_status db tid s) tid' =
      if tid' = tid then (statusOfTarget db tid').map (fun _ => s)
      else statusOfTarget db tid' := by
  unfold statusOfTarget update_snipe_target_status
  rw [List.find?_map]
  have hpred : ((fun t : SnipeTarget => t.id == Option.some tid') ∘ updTarget tid s) =
      (fun t : SnipeTarget => t.id == Option.some tid') := by
    funext t
    simp [Function.comp, updTarget_id]
  rw [hpred]
  cases hfind : db.targets.find? (fun t => t.id == Option.some tid') with
  | none => simp
  | some u =>
    have hu' := List.find?_some hfind
    have hu : u.id = Option.some tid' := by
      simpa [beq_iff_eq] using hu'
    by_cases htid : tid' = tid
    · subst htid
      simp only [if_pos rfl, Option.map_some, Option.map_map]
      simp [updTarget, hu]
    · simp only [if_neg htid]
      simp only [Option.map_some, Option.map_map]
      have : updTarget tid s u = u := by
        unfold updTarget
        rw [hu]
        simp [htid]
      simp [Function.comp, this]

theorem foldl_schedStep_other (now : ℚ) (tid : Nat) :
    ∀ (ps : List SnipeTarget) (acc : DbState × Nat),
      (∀ p ∈ ps, p.id ≠ Option.some tid) →
      statusOfTarget (ps.foldl (schedStep now) acc).1 tid = statusOfTarget acc.1 tid := by
  intro ps
  induction ps with
  | nil => intro acc h; rfl
  | cons p tl ih =>
    intro acc h
    have hp : p.id ≠ Option.some tid := h p (List.mem_cons_self p tl)
    have htl : ∀ q ∈ tl, q.id ≠ Option.some tid := fun q hq => h q (List.mem_cons_of_mem p hq)
    rw [List.foldl_cons, ih _ htl]
    unfold schedStep
    cases hpid : p.id with
    | none => rfl
    | some k =>
      have hk : ¬(tid = k) := by
        intro hcontra
        exact hp (by rw [hpid, hcontra])
      split
      · rfl
      · rename_i k2 heq2
        obtain rfl : k = k2 := Option.some.inj heq2
        split
        · split <;> simp [statusOfTarget_update, hk]
        · rfl

theorem find?_unique_target (tid : Nat) (t : SnipeTarget) :
    ∀ l : List SnipeTarget, t ∈ l → t.id = Option.some tid →
      l.Pairwise (fun a b => ¬(a.id = Option.some tid ∧ b.id = Option.some tid)) →
      l.find? (fun x => x.id == Option.some tid) = Option.some t := by
  intro l
  induction l with
  | nil => intro hmem; exact absurd hmem (List.not_mem_nil t)
  | cons h tl ih =>
    intro hmem hid hpw
    rw [List.pairwise_cons] at hpw
    obtain ⟨hhead, htail⟩ := hpw
    rcases List.mem_cons.mp hmem with heq | hmemtl
    · subst heq
      rw [List.find?_cons_of_pos]
      rw [beq_iff_eq]
      exact hid
    · have hhid : h.id ≠ Option.some tid := by
        intro hcontra
        exact hhead t hmemtl ⟨hcontra, hid⟩
      rw [List.find?_cons_of_neg]
      · exact ih hmemtl hid htail
      · simp [hhid]

theorem schedStep_pending (now : ℚ) (acc : DbState × Nat) (t : SnipeTarget) (tid : Nat)
    (hid : t.id = Option.some tid) (hstatus : t.execution_status = "pending") :
    schedStep now acc t =
      if t.actual_launch_datetime_utc - now > 10 then
        (update_snipe_target_status acc.1 tid "scheduled", acc.2 + 1)
      else (update_snipe_target_status acc.1 tid "missed", acc.2) := by
  unfold schedStep
  rw [hid]
  simp only [hstatus]
  rw [if_pos (show ("pending" == "pending") = true from rfl)]

end ScheduleLemmas

/-- C4: in the schedule step, every target still in status pending (with a
primary key, unique among the rows) ends with status scheduled when strictly
more than 10 seconds remain before its launch, and with status missed when at
most 10 seconds (including exactly 10) remain. -/
theorem C4_schedule_decision (db : DbState) (now : ℚ) (t : SnipeTarget) (tid : Nat)
    (hmem : t ∈ db.targets) (hstatus : t.execution_status = "pending")
    (hid : t.id = Option.some tid)
    (huniq : db.targets.Pairwise
      (fun a b => ¬(a.id = Option.some tid ∧ b.id = Option.some tid))) :
    statusOfTarget (scheduleReadyTargets db now).1 tid =
      Option.some (if t.actual_launch_datetime_utc - now > 10 then "scheduled" else "missed") := by
  have hpend : t ∈ get_pending_snipe_targets db := by
    unfold get_pending_snipe_targets
    rw [List.mem_filter]
    exact ⟨hmem, by rw [hstatus]; rfl⟩
  obtain ⟨l1, l2, hsplit⟩ := List.append_of_mem hpend
  have hpw : (get_pending_snipe_targets db).Pairwise
      (fun a b => ¬(a.id = Option.some tid ∧ b.id = Option.some tid)) :=
    List.Pairwise.sublist (List.filter_sublist db.targets) huniq
  rw [hsplit] at hpw
  rw [List.pairwise_append] at hpw
  obtain ⟨hpw1, hpw2, hcross⟩ := hpw
  rw [List.pairwise_cons] at hpw2
  obtain ⟨hafter, -⟩ := hpw2
  have hl1 : ∀ p ∈ l1, p.id ≠ Option.some tid := by
    intro p hp hcontra
    exact hcross p hp t (List.mem_cons_self t l2) ⟨hcontra, hid⟩
  have hl2 : ∀ p ∈ l2, p.id ≠ Option.some tid := by
    intro p hp hcontra
    exact hafter p hp ⟨hid, hcontra⟩
  have hstatus_db : statusOfTarget db tid = Option.some "pending" := by
    unfold statusOfTarget
    rw [find?_unique_target tid t db.targets hmem hid huniq]
    simp [hstatus]
  unfold scheduleReadyTargets
  rw [hsplit, List.foldl_append, List.foldl_cons]
  rw [foldl_schedStep_other now tid l2 _ hl2]
  have hacc1 : statusOfTarget (l1.foldl (schedStep now) (db, 0)).1 tid =
      Option.some "pending" := by
    rw [foldl_schedStep_other now tid l1 _ hl1]
    exact hstatus_db
  rw [schedStep_pending now _ t tid hid hstatus]
  split
  · dsimp only
    rw [statusOfTarget_update, if_pos rfl, hacc1]
    rfl
  · dsimp only
    rw [statusOfTarget_update, if_pos rfl, hacc1]
    rfl

def c4Target : SnipeTarget :=
  { id := Option.some 0, vcoin_id := "B", mexc_symbol_contract := "BUSDT",
    price_precision := 8, quantity_precision := 6, actual_launch_time_ms := 10000,
    actual_launch_datetime_utc := 10, discovered_at_utc := 0,
    hours_advance_notice := 4, intended_buy_amount_usdt := 100,
    execution_order_params := [], execution_status := "pending" }

def c4Db : DbState := { listings := [], targets := [c4Target], nextTargetId := 1 }

/-- Witness for C4 at the boundary: exactly 10 seconds of lead time is missed. -/
theorem C4_schedule_decision_witness :
    statusOfTarget (scheduleReadyTargets c4Db 0).1 0 = Option.some "missed" := by
  have h := C4_schedule_decision c4Db 0 c4Target 0 (by simp [c4Db]) rfl rfl
    (by simp [c4Db])
  rw [h]
  norm_num [c4Target]

/-- Internal bus events sent by the workflow steps (inngest_functions). -/
inductive InngestEvent where
  | symbolRecheckNeeded (vcoin_id : String) (attempt : Int)
  | targetReady (target_id : Option Nat) (vcoin_id : String) (launch_utc : ℚ)
deriving DecidableEq, Repr

/-- The result of the check-symbol-status step: either a symbol matching the
ready pattern was found (with its completeness flag) or none was. -/
inductive SymbolStatus where
  | ready (symbol : SymbolV2EntryApi) (has_complete_data : Bool)
  | notReady (symbols_found : Nat)
deriving DecidableEq, Repr

/-- _check_symbol_status: the first symbol matching the ready pattern wins. -/
def checkSymbolStatus (symbols : List SymbolV2EntryApi) : SymbolStatus :=
  match symbols.find? (fun s => s.matches_ready_pattern settings.READY_STATE_PATTERN) with
  | Option.some s => SymbolStatus.ready s s.has_complete_data
  | Option.none => SymbolStatus.notReady symbols.length

/-- _process_symbol_status: below the attempt cap a recheck event with
attempt+1 is emitted; at or above the cap nothing more is emitted; a ready
symbol with complete data goes through the ready-target policy. Returns the
updated store, the step's result dict and the events sent. -/
def processSymbolStatus (db : DbState) (now : ℚ) (status : SymbolStatus)
    (vcoin_id : String) (attempt : Int) :
    DbState × List (String × PyVal) × List InngestEvent :=
  match status with
  | SymbolStatus.notReady _ =>
    if attempt < 10 then
      (db, [("next_check_scheduled", PyVal.bool true)],
        [InngestEvent.symbolRecheckNeeded vcoin_id (attempt + 1)])
    else
      (db, [("max_attempts_reached", PyVal.bool true)], [])
  | SymbolStatus.ready symbol complete =>
    if complete then
      match get_monitored_listing db vcoin_id with
      | Option.some listing =>
        match createReadyTarget db now listing symbol with
        | (db1, Option.some target) =>
          (db1,
            [("target_created", PyVal.bool true),
             ("target_id", match target.id with
               | Option.some i => PyVal.num (i : ℚ)
               | Option.none => PyVal.none)],
            [InngestEvent.targetReady target.id vcoin_id target.actual_launch_datetime_utc])
        | (db1, Option.none) =>
          (db1, [("ready", PyVal.bool true), ("target_created", PyVal.bool false)], [])
      | Option.none =>
        (db, [("ready", PyVal.bool true), ("target_created", PyVal.bool false)], [])
    else
      (db, [("ready", PyVal.bool true), ("target_created", PyVal.bool false)], [])

/-- C7: when the symbol is not ready, an attempt below 10 emits exactly one
symbol_recheck_needed event carrying attempt+1 and returns
next_check_scheduled true, while an attempt of 10 or more returns
max_attempts_reached true and emits no event. -/
theorem C7_recheck_cap (db : DbState) (now : ℚ) (status : SymbolStatus)
    (vcoin_id : String) (attempt : Int) (n : Nat)
    (hstatus : status = SymbolStatus.notReady n) :
    (attempt < 10 →
      processSymbolStatus db now status vcoin_id attempt =
        (db, [("next_check_scheduled", PyVal.bool true)],
          [InngestEvent.symbolRecheckNeeded vcoin_id (attempt + 1)])) ∧
    (10 ≤ attempt →
      processSymbolStatus db now status vcoin_id attempt =
        (db, [("max_attempts_reached", PyVal.bool true)], [])) := by
  subst hstatus
  constructor
  · intro h
    simp [processSymbolStatus, h]
  · intro h
    simp [processSymbolStatus, not_lt.mpr h]

/-- Witness for C7 exactly at the cap: attempt 10, symbol not ready. -/
theorem C7_recheck_cap_witness :
    processSymbolStatus wDb 0 (SymbolStatus.notReady 0) "A" 10 =
      (wDb, [("max_attempts_reached", PyVal.bool true)], []) :=
  (C7_recheck_cap wDb 0 (SymbolStatus.notReady 0) "A" 10 0 rfl).2 (by norm_num)

/-- Decoded HTTP response body; the adapter checks dict-ness before reading msg. -/
inductive RespBody where
  | dict (entries : List (String × PyVal))
  | other
deriving DecidableEq, Repr

/-- mexc_api.MexcApiError: message plus optional status code and body. -/
structure MexcApiError where
  message : String
  status_code : Option Nat := Option.none
  response_data : Option RespBody := Option.none
deriving DecidableEq, Repr

/-- What one attempt of the HTTP request produces: a transport-level failure
(aiohttp.ClientError) or a decoded response with its status. -/
inductive AttemptOutcome where
  | transportError (msg : String)
  | response (status : Nat) (body : RespBody)
deriving DecidableEq, Repr

def AttemptOutcome.isTransport : AttemptOutcome → Bool
  | AttemptOutcome.transportError _ => true
  | AttemptOutcome.response _ _ => false

def AttemptOutcome.isBadResponse : AttemptOutcome → Bool
  | AttemptOutcome.transportError _ => false
  | AttemptOutcome.response status _ => !(status == 200)

/-- Rendering of a PyVal inside an f-string; only string values occur in the
error paths exercised here. -/
def pyFormat : PyVal → String
  | PyVal.str s => s
  | PyVal.bool b => if b then "True" else "False"
  | PyVal.none => "None"
  | PyVal.num q => toString q

/-- The message built for a non-200 response in _make_request. -/
def httpErrorMessage (status : Nat) (body : RespBody) : String :=
  match body with
  | RespBody.dict entries =>
    "MEXC API error: " ++ toString status ++ " - "
      ++ pyFormat ((entries.lookup "msg").getD (PyVal.str "Unknown error"))
  | RespBody.other => "MEXC API error: " ++ toString status

/-- The exponential backoff slept before retrying: (2 ** attempt) * 0.5. -/
def backoff (attempt : Nat) : ℚ := (2 ^ attempt : ℚ) * (1 / 2)

/-- The retry loop of MexcApiClient._make_request, one fuel unit per loop
iteration (`for attempt in range(retries + 1)`). The MexcApiError raised for
a non-200 status inside the try block is not an aiohttp.ClientError, so it is
caught by the generic handler and retried like a transport error; on the last
attempt it is re-wrapped with no status code or body. Returns the outcome and
the list of backoff sleeps performed. -/
def makeRequestGo (env : Nat → AttemptOutcome) (retries : Nat) :
    Nat → Nat → Except MexcApiError RespBody × List ℚ
  | 0, _ => (Except.error { message := "Max retries exceeded" }, [])
  | fuel + 1, attempt =>
    match env attempt with
    | AttemptOutcome.transportError m =>
      if attempt == retries then
        (Except.error
          { message := "Network error after " ++ toString (retries + 1) ++ " attempts: " ++ m },
         [])
      else
        let r := makeRequestGo env retries fuel (attempt + 1)
        (r.1, backoff attempt :: r.2)
    | AttemptOutcome.response status body =>
      if status == 200 then
        (Except.ok body, [])
      else
        let e : MexcApiError :=
          { message := httpErrorMessage status body,
            status_code := Option.some status,
            response_data := Option.some body }
        if attempt == retries then
          (Except.error { message := "Unexpected error: " ++ e.message }, [])
        else
          let r := makeRequestGo env retries fuel (attempt + 1)
          (r.1, backoff attempt :: r.2)

/-- MexcApiClient._make_request with the default retries = 3 budget. -/
def makeRequest (env : Nat → AttemptOutcome) (retries : Nat) :
    Except MexcApiError RespBody × List ℚ :=
  makeRequestGo env retries (retries + 1) 0

def envHttp400 : Nat → AttemptOutcome :=
  fun _ => AttemptOutcome.response 400 (RespBody.dict [("msg", PyVal.str "Bad Request")])

/-- C1 counterexample: with every attempt answering HTTP 400, the request is
retried three times (three backoff sleeps occur) and the final error carries
neither the status code nor the decoded body, contrary to the claim that a
non-2xx response fails immediately with an upstream-http error carrying both. -/
theorem C1_counterexample :
    (makeRequest envHttp400 3).2 = [1 / 2, 1, 2] ∧
    (makeRequest envHttp400 3).1 =
      Except.error { message := "Unexpected error: MEXC API error: 400 - Bad Request",
                     status_code := Option.none, response_data := Option.none } := by
  constructor
  · norm_num [makeRequest, makeRequestGo, backoff, envHttp400]
  · rfl

theorem makeRequest_transport_all (env : Nat → AttemptOutcome) (m0 m1 m2 m3 : String)
    (h0 : env 0 = AttemptOutcome.transportError m0)
    (h1 : env 1 = AttemptOutcome.transportError m1)
    (h2 : env 2 = AttemptOutcome.transportError m2)
    (h3 : env 3 = AttemptOutcome.transportError m3) :
    makeRequest env 3 =
      (Except.error
        { message := "Network error after " ++ toString (3 + 1) ++ " attempts: " ++ m3 },
       [backoff 0, backoff 1, backoff 2]) := by
  simp [makeRequest, makeRequestGo, h0, h1, h2, h3]

theorem makeRequest_badresponse_all (env : Nat → AttemptOutcome)
    (s0 s1 s2 s3 : Nat) (b0 b1 b2 b3 : RespBody)
    (h0 : env 0 = AttemptOutcome.response s0 b0) (hs0 : (s0 == 200) = false)
    (h1 : env 1 = AttemptOutcome.response s1 b1) (hs1 : (s1 == 200) = false)
    (h2 : env 2 = AttemptOutcome.response s2 b2) (hs2 : (s2 == 200) = false)
    (h3 : env 3 = AttemptOutcome.response s3 b3) (hs3 : (s3 == 200) = false) :
    makeRequest env 3 =
      (Except.error { message := "Unexpected error: " ++ httpErrorMessage s3 b3 },
       [backoff 0, backoff 1, backoff 2]) := by
  simp [makeRequest, makeRequestGo, h0, h1, h2, h3, hs0, hs1, hs2, hs3]

/-- C1 amended: with the default budget of 3 retries, a transport error on
every attempt is retried three times with backoff 0.5 * 2 ^ attempt seconds
(sleeps 0.5, 1, 2) and ends in a network error without status code; a non-200
HTTP response on every attempt is retried identically, because the
MexcApiError raised for it falls into the generic exception handler, and ends
in an error wrapping the message, with the status code and decoded body no
longer attached. -/
theorem C1_retry_behaviour (env : Nat → AttemptOutcome) :
    ((∀ i, i ≤ 3 → (env i).isTransport = true) →
      (makeRequest env 3).2 = [backoff 0, backoff 1, backoff 2] ∧
      (makeRequest env 3).2 = [1 / 2, 1, 2] ∧
      ∃ e m, (makeRequest env 3).1 = Except.error e ∧
        e.message = "Network error after " ++ toString (3 + 1) ++ " attempts: " ++ m ∧
        e.status_code = Option.none) ∧
    ((∀ i, i ≤ 3 → (env i).isBadResponse = true) →
      (makeRequest env 3).2 = [backoff 0, backoff 1, backoff 2] ∧
      (makeRequest env 3).2 = [1 / 2, 1, 2] ∧
      ∃ e m, (makeRequest env 3).1 = Except.error e ∧
        e.message = "Unexpected error: " ++ m ∧
        e.status_code = Option.none ∧ e.response_data = Option.none) := by
  have hback : [backoff 0, backoff 1, backoff 2] = [1 / 2, 1, 2] := by
    norm_num [backoff]
  constructor
  · intro h
    have h0 := h 0 (by norm_num)
    have h1 := h 1 (by norm_num)
    have h2 := h 2 (by norm_num)
    have h3 := h 3 (by norm_num)
    obtain ⟨m0, hm0⟩ : ∃ m, env 0 = AttemptOutcome.transportError m := by
      cases he : env 0 <;> rw [he] at h0 <;> simp [AttemptOutcome.isTransport] at h0
      exact ⟨_, rfl⟩
    obtain ⟨m1, hm1⟩ : ∃ m, env 1 = AttemptOutcome.transportError m := by
      cases he : env 1 <;> rw [he] at h1 <;> simp [AttemptOutcome.isTransport] at h1
      exact ⟨_, rfl⟩
    obtain ⟨m2, hm2⟩ : ∃ m, env 2 = AttemptOutcome.transportError m := by
      cases he : env 2 <;> rw [he] at h2 <;> simp [AttemptOutcome.isTransport] at h2
      exact ⟨_, rfl⟩
    obtain ⟨m3, hm3⟩ : ∃ m, env 3 = AttemptOutcome.transportError m := by
      cases he : env 3 <;> rw [he] at h3 <;> simp [AttemptOutcome.isTransport] at h3
      exact ⟨_, rfl⟩
    have hrun := makeRequest_transport_all env m0 m1 m2 m3 hm0 hm1 hm2 hm3
    refine ⟨?_, ?_, ?_⟩
    · rw [hrun]
    · rw [hrun]
      exact hback
    · refine ⟨{ message := "Network error after " ++ toString (3 + 1) ++ " attempts: " ++ m3 },
        m3, ?_, rfl, rfl⟩
      rw [hrun]
  · intro h
    have h0 := h 0 (by norm_num)
    have h1 := h 1 (by norm_num)
    have h2 := h 2 (by norm_num)
    have h3 := h 3 (by norm_num)
    obtain ⟨s0, b0, hm0, hs0⟩ :
        ∃ s b, env 0 = AttemptOutcome.response s b ∧ (s == 200) = false := by
      cases he : env 0 <;> rw [he] at h0 <;> simp [AttemptOutcome.isBadResponse] at h0
      exact ⟨_, _, rfl, by simp [h0]⟩
    obtain ⟨s1, b1, hm1, hs1⟩ :
        ∃ s b, env 1 = AttemptOutcome.response s b ∧ (s == 200) = false := by
      cases he : env 1 <;> rw [he] at h1 <;> simp [AttemptOutcome.isBadResponse] at h1
      exact ⟨_, _, rfl, by simp [h1]⟩
    obtain ⟨s2, b2, hm2, hs2⟩ :
        ∃ s b, env 2 = AttemptOutcome.response s b ∧ (s == 200) = false := by
      cases he : env 2 <;> rw [he] at h2 <;> simp [AttemptOutcome.isBadResponse] at h2
      exact ⟨_, _, rfl, by simp [h2]⟩
    obtain ⟨s3, b3, hm3, hs3⟩ :
        ∃ s b, env 3 = AttemptOutcome.response s b ∧ (s == 200) = false := by
      cases he : env 3 <;> rw [he] at h3 <;> simp [AttemptOutcome.isBadResponse] at h3
      exact ⟨_, _, rfl, by simp [h3]⟩
    have hrun := makeRequest_badresponse_all env s0 s1 s2 s3 b0 b1 b2 b3
      hm0 hs0 hm1 hs1 hm2 hs2 hm3 hs3
    refine ⟨?_, ?_, ?_⟩
    · rw [hrun]
    · rw [hrun]
      exact hback
    · refine ⟨{ message := "Unexpected error: " ++ httpErrorMessage s3 b3 },
        httpErrorMessage s3 b3, ?_, rfl, rfl, rfl⟩
      rw [hrun]

def envTransport : Nat → AttemptOutcome := fun _ => AttemptOutcome.transportError "boom"

/-- Witness for the amended C1 on a persistently failing transport. -/
theorem C1_retry_behaviour_witness :
    (makeRequest envTransport 3).2 = [backoff 0, backoff 1, backoff 2] ∧
    (makeRequest envTransport 3).2 = [1 / 2, 1, 2] ∧
    ∃ e m, (makeRequest envTransport 3).1 = Except.error e ∧
      e.message = "Network error after " ++ toString (3 + 1) ++ " attempts: " ++ m ∧
      e.status_code = Option.none :=
  (C1_retry_behaviour envTransport).1 (fun _ _ => rfl)

namespace SHA256

/-- 2 ^ 32, the word modulus of SHA-256 arithmetic. -/
def wordMod : Nat := 4294967296

/-- Rotate a 32-bit word (given as a Nat below wordMod) right by n. -/
def rotr (n x : Nat) : Nat := ((x >>> n) ||| (x <<< (32 - n))) % wordMod

def bigSigma0 (x : Nat) : Nat := rotr 2 x ^^^ rotr 13 x ^^^ rotr 22 x

def bigSigma1 (x : Nat) : Nat := rotr 6 x ^^^ rotr 11 x ^^^ rotr 25 x

def smallSigma0 (x : Nat) : Nat := rotr 7 x ^^^ rotr 18 x ^^^ (x >>> 3)

def smallSigma1 (x : Nat) : Nat := rotr 17 x ^^^ rotr 19 x ^^^ (x >>> 10)

def ch (x y z : Nat) : Nat := (x &&& y) ^^^ ((x ^^^ 4294967295) &&& z)

def maj (x y z : Nat) : Nat := (x &&& y) ^^^ (x &&& z) ^^^ (y &&& z)

def K : List Nat :=
  [1116352408, 1899447441, 3049323471, 3921009573, 961987163,
   1508970993, 2453635748, 2870763221, 3624381080, 310598401,
   607225278, 1426881987, 1925078388, 2162078206, 2614888103,
   3248222580, 3835390401, 4022224774, 264347078, 604807628,
   770255983, 1249150122, 1555081692, 1996064986, 2554220882,
   2821834349, 2952996808, 3210313671, 3336571891, 3584528711,
   113926993, 338241895, 666307205, 773529912, 1294757372,
   1396182291, 1695183700, 1986661051, 2177026350, 2456956037,
   2730485921, 2820302411, 3259730800, 3345764771, 3516065817,
   3600352804, 4094571909, 275423344, 430227734, 506948616,
   659060556, 883997877, 958139571, 1322822218, 1537002063,
   1747873779, 1955562222, 2024104815, 2227730452, 2361852424,
   2428436474, 2756734187, 3204031479, 3329325298]

def H0 : List Nat :=
  [1779033703, 3144134277, 1013904242, 2773480762,
   1359893119, 2600822924, 528734635, 1541459225]

/-- Extend the 16-word block to the 64-word message schedule. -/
def scheduleExtend : List Nat → Nat → List Nat
  | w, 0 => w
  | w, k + 1 =>
    let i := w.length
    let wi := (smallSigma1 (w.getD (i - 2) 0) + w.getD (i - 7) 0
      + smallSigma0 (w.getD (i - 15) 0) + w.getD (i - 16) 0) % wordMod
    scheduleExtend (w ++ [wi]) k

/-- One compression of a 16-word block into the 8-word chaining state. -/
def compress (hs : List Nat) (block : List Nat) : List Nat :=
  let w := scheduleExtend block 48
  let s := (K.zip w).foldl
    (fun st kw =>
      match st with
      | [a, b, c, d, e, f, g, h] =>
        let t1 := (h + bigSigma1 e + ch e f g + kw.1 + kw.2) % wordMod
        let t2 := (bigSigma0 a + maj a b c) % wordMod
        [(t1 + t2) % wordMod, a, b, c, (d + t1) % wordMod, e, f, g]
      | other => other)
    hs
  (hs.zip s).map (fun p => (p.1 + p.2) % wordMod)

/-- Big-endian bytes of a number, fixed width. -/
def toBytesBE (len x : Nat) : List Nat :=
  (List.range len).map (fun i => (x >>> (8 * (len - 1 - i))) % 256)

/-- Group bytes into big-endian 32-bit words. -/
def bytesToWords : List Nat → List Nat
  | b1 :: b2 :: b3 :: b4 :: rest =>
    (b1 * 16777216 + b2 * 65536 + b3 * 256 + b4) :: bytesToWords rest
  | _ => []

/-- Split padded bytes into 16-word blocks; the fuel is the block count. -/
def blocksAux : Nat → List Nat → List (List Nat)
  | 0, _ => []
  | n + 1, bs => bytesToWords (bs.take 64) :: blocksAux n (bs.drop 64)

/-- SHA-256 of a byte list, as the 32-byte digest. -/
def sha256Bytes (msg : List Nat) : List Nat :=
  let L := msg.length
  let padded := msg ++ [128] ++ List.replicate ((64 - ((L + 9) % 64)) % 64) 0
    ++ toBytesBE 8 (8 * L)
  let hs := (blocksAux (padded.length / 64) padded).foldl compress H0
  hs.foldr (fun h acc => toBytesBE 4 h ++ acc) []

/-- HMAC-SHA256 over byte lists (RFC 2104, block size 64). -/
def hmac (key msg : List Nat) : List Nat :=
  let k0 := if 64 < key.length then sha256Bytes key else key
  let k := k0 ++ List.replicate (64 - k0.length) 0
  let ipadded := k.map (fun b => b ^^^ 0x36)
  let opadded := k.map (fun b => b ^^^ 0x5c)
  sha256Bytes (opadded ++ sha256Bytes (ipadded ++ msg))

end SHA256

/-- UTF-8 encoding of one character. -/
def encodeCharUtf8 (c : Char) : List Nat :=
  let n := c.toNat
  if n < 128 then [n]
  else if n < 2048 then [192 + n / 64, 128 + n % 64]
  else if n < 65536 then [224 + n / 4096, 128 + (n / 64) % 64, 128 + n % 64]
  else [240 + n / 262144, 128 + (n / 4096) % 64, 128 + (n / 64) % 64, 128 + n % 64]

/-- UTF-8 bytes of a string, as encode('utf-8') produces them. -/
def utf8Bytes (s : String) : List Nat :=
  s.toList.foldr (fun c acc => encodeCharUtf8 c ++ acc) []

/-- Lowercase hex digit. -/
def hexDigitLower (n : Nat) : Char :=
  if n < 10 then Char.ofNat (48 + n) else Char.ofNat (87 + n)

/-- Uppercase hex digit, as percent-encoding uses. -/
def hexDigitUpper (n : Nat) : Char :=
  if n < 10 then Char.ofNat (48 + n) else Char.ofNat (55 + n)

/-- Lowercase hex rendering of a byte list (hexdigest). -/
def bytesToHex (bs : List Nat) : String :=
  String.mk (bs.foldr (fun b acc => hexDigitLower (b / 16) :: hexDigitLower (b % 16) :: acc) [])

/-- hmac.new(secret, message, sha256).hexdigest() over UTF-8 encoded strings. -/
def hmacSha256Hex (secret message : String) : String :=
  bytesToHex (SHA256.hmac (utf8Bytes secret) (utf8Bytes message))

/-- urllib quote_plus on a single UTF-8 byte: unreserved characters pass,
space becomes +, everything else is percent-encoded in uppercase hex. -/
def quotePlusByte (b : Nat) : List Char :=
  if (65 ≤ b ∧ b ≤ 90) ∨ (97 ≤ b ∧ b ≤ 122) ∨ (48 ≤ b ∧ b ≤ 57)
      ∨ b = 95 ∨ b = 46 ∨ b = 45 ∨ b = 126 then
    [Char.ofNat b]
  else if b = 32 then
    ['+']
  else
    ['%', hexDigitUpper (b / 16), hexDigitUpper (b % 16)]

/-- urllib.parse.quote_plus of a string. -/
def quotePlus (s : String) : String :=
  String.mk ((utf8Bytes s).foldr (fun b acc => quotePlusByte b ++ acc) [])

/-- urllib.parse.urlencode over a list of key-value pairs. -/
def urlencode (params : List (String × String)) : String :=
  String.intercalate "&" (params.map (fun kv => quotePlus kv.1 ++ "=" ++ quotePlus kv.2))

/-- Python string comparison: lexicographic on code points. -/
def charListLt : List Char → List Char → Bool
  | [], [] => false
  | [], _ :: _ => true
  | _ :: _, [] => false
  | c :: cs, d :: ds =>
    c.toNat < d.toNat || (c.toNat == d.toNat && charListLt cs ds)

def strLt (a b : String) : Bool := charListLt a.toList b.toList

/-- Python tuple ordering on (key, value) string pairs. -/
def pairLe (a b : String × String) : Bool :=
  if strLt a.1 b.1 then true
  else if strLt b.1 a.1 then false
  else !(strLt b.2 a.2)

def insertPair (x : String × String) : List (String × String) → List (String × String)
  | [] => [x]
  | y :: ys => if pairLe x y then x :: y :: ys else y :: insertPair x ys

/-- Python sorted() on the items of a parameter dict. -/
def pySorted (l : List (String × String)) : List (String × String) :=
  l.foldr insertPair []

/-- Assignment into a Python dict viewed as an association list with unique
keys: replace in place when the key exists, append otherwise. -/
def pyDictSet (params : List (String × String)) (key value : String) :
    List (String × String) :=
  if params.any (fun kv => kv.1 == key) then
    params.map (fun kv => if kv.1 == key then (key, value) else kv)
  else
    params ++ [(key, value)]

/-- MexcApiClient._generate_signature: refuse when the secret is falsy,
otherwise HMAC-SHA256 the urlencoded key-sorted parameters, lowercase hex. -/
def generate_signature (secret_key : Option String) (params : List (String × String)) :
    Except MexcApiError String :=
  if !(pyTruthyStr secret_key) then
    Except.error { message := "MEXC secret key not configured" }
  else
    Except.ok (hmacSha256Hex (secret_key.getD "") (urlencode (pySorted params)))

/-- The authenticated-request preparation inside _make_request: add the
millisecond timestamp to the params, then compute and append the signature. -/
def signParams (secret_key : Option String) (params : List (String × String))
    (now_ms : Nat) : Except MexcApiError (List (String × String)) :=
  let params1 := pyDictSet params "timestamp" (toString now_ms)
  match generate_signature secret_key params1 with
  | Except.error e => Except.error e
  | Except.ok sig => Except.ok (pyDictSet params1 "signature" sig)

/-- C8: the prepared authenticated request carries a signature equal to the
lowercase-hex HMAC-SHA256, keyed by the secret, of the urlencoding of the
parameters sorted by key, where the timestamp has been added before signing
and the signature itself is excluded from the signed string; a missing
(falsy) secret fails with the configuration error instead. -/
theorem C8_signature_spec (secret_key : Option String)
    (params : List (String × String)) (now_ms : Nat) :
    (pyTruthyStr secret_key = false →
      signParams secret_key params now_ms =
        Except.error { message := "MEXC secret key not configured",
                       status_code := Option.none, response_data := Option.none }) ∧
    (pyTruthyStr secret_key = true →
      signParams secret_key params now_ms =
        Except.ok (pyDictSet (pyDictSet params "timestamp" (toString now_ms)) "signature"
          (hmacSha256Hex (secret_key.getD "")
            (urlencode (pySorted (pyDictSet params "timestamp" (toString now_ms))))))) := by
  constructor
  · intro h
    simp [signParams, generate_signature, h]
  · intro h
    simp [signParams, generate_signature, h]

/-- Witness for C8 at a concrete secret and parameter map. -/
theorem C8_signature_spec_witness :
    signParams (Option.some "topsecret") [("symbol", "AUSDT")] 1700000000000 =
      Except.ok (pyDictSet (pyDictSet [("symbol", "AUSDT")] "timestamp"
          (toString 1700000000000)) "signature"
        (hmacSha256Hex "topsecret"
          (urlencode (pySorted (pyDictSet [("symbol", "AUSDT")] "timestamp"
            (toString 1700000000000)))))) :=
  (C8_signature_spec (Option.some "topsecret") [("symbol", "AUSDT")] 1700000000000).2 rfl

set_option maxRecDepth 100000 in
/-- Sanity: the embedded SHA-256 matches the standard digest of the empty message. -/
theorem sha256_vector_empty :
    bytesToHex (SHA256.sha256Bytes []) =
      "e3b0c44298fc1c149afbf4c8996fb92427ae41e4649b934ca495991b7852b855" := by decide

set_option maxRecDepth 100000 in
/-- Sanity: the embedded SHA-256 matches the standard digest of "abc". -/
theorem sha256_vector_abc :
    bytesToHex (SHA256.sha256Bytes (utf8Bytes "abc")) =
      "ba7816bf8f01cfea414140de5dae2223b00361a396177a9cb410ff61f20015ad" := by decide

set_option maxRecDepth 100000 in
/-- Sanity: the embedded HMAC-SHA256 matches RFC 4231 test case 2. -/
theorem hmac_vector_rfc4231 :
    hmacSha256Hex "Jefe" "what do ya want for nothing?" =
      "5bdcc146bf60754e6a042426089575c75a003f089d2739839dec58b964ec3843" := by decide

/-- Sanity: quote_plus escapes reserved characters and maps space to plus. -/
theorem quotePlus_vector : quotePlus "a b/c=1&x" = "a+b%2Fc%3D1%26x" := by decide

/-- Sanity: urlencode of key-sorted parameters. -/
theorem urlencode_vector :
    urlencode (pySorted [("timestamp", "17"), ("symbol", "AUSDT")]) =
      "symbol=AUSDT&timestamp=17" := by decide

/-- One Redis row: namespaced key, value (in decoded JSON form) and TTL. -/
structure RedisEntry where
  key : String
  value : PyVal
  ttl : Int
deriving DecidableEq, Repr

/-- The live backend store; Option.none models a backend that refuses the
connection and raises on every command. -/
abbrev RedisBackend := Option (List RedisEntry)

/-- The connection-level state of cache_service.CacheService. -/
structure CacheState where
  redis_url : Option String
  keyPrefix : String
  is_available : Bool
  connection_attempts : Nat
  has_client : Bool
deriving DecidableEq, Repr

def max_connection_attempts : Nat := 3

def ttl_config : List (String × Int) :=
  [("symbols", 5), ("calendar", 30), ("account", 60), ("server_time", 10)]

def default_ttl : Int := 5

/-- CacheService._get_ttl. -/
def getTtlFor (cache_type : String) : Int :=
  (ttl_config.lookup cache_type).getD default_ttl

/-- CacheService._make_key. -/
def makeKey (s : CacheState) (key : String) : String :=
  s.keyPrefix ++ ":" ++ key

/-- CacheService.start: no-op without a URL; otherwise connect when the
backend is reachable, else count the failed attempt. -/
def cacheStart (s : CacheState) (backend : RedisBackend) : CacheState × Bool :=
  match s.redis_url with
  | Option.none => (s, false)
  | Option.some _ =>
    match backend with
    | Option.some _ =>
      ({ s with is_available := true, connection_attempts := 0, has_client := true }, true)
    | Option.none =>
      ({ s with
          connection_attempts := s.connection_attempts + 1
          is_available := false
          has_client := false }, false)

/-- CacheService._ensure_connection. -/
def ensureConnection (s : CacheState) (backend : RedisBackend) : CacheState × Bool :=
  if !s.is_available && s.connection_attempts < max_connection_attempts then
    cacheStart s backend
  else (s, s.is_available)

/-- CacheService.get: miss (None) when unavailable or on any backend error. -/
def cacheGet (s : CacheState) (backend : RedisBackend) (key : String) :
    CacheState × Option PyVal :=
  match ensureConnection s backend with
  | (s1, ok) =>
    if !ok || !s1.has_client then (s1, Option.none)
    else
      match backend with
      | Option.none => (s1, Option.none)
      | Option.some store =>
        match store.find? (fun e => e.key == makeKey s1 key) with
        | Option.none => (s1, Option.none)
        | Option.some e => (s1, Option.some e.value)

/-- CacheService.set: false when unavailable or on any backend error, else
setex with the explicit TTL or the cache-type TTL. -/
def cacheSet (s : CacheState) (backend : RedisBackend) (key : String)
    (value : PyVal) (ttl : Option Int) (cache_type : String) :
    CacheState × RedisBackend × Bool :=
  match ensureConnection s backend with
  | (s1, ok) =>
    if !ok || !s1.has_client then (s1, backend, false)
    else
      match backend with
      | Option.none => (s1, backend, false)
      | Option.some store =>
        let ttlv := match ttl with
          | Option.some n => n
          | Option.none => getTtlFor cache_type
        let ckey := makeKey s1 key
        (s1,
         Option.some (store.filter (fun e => !(e.key == ckey))
           ++ [{ key := ckey, value := value, ttl := ttlv }]),
         true)

/-- CacheService.delete: false when unavailable or on any backend error, else
report whether the key existed. -/
def cacheDelete (s : CacheState) (backend : RedisBackend) (key : String) :
    CacheState × RedisBackend × Bool :=
  match ensureConnection s backend with
  | (s1, ok) =>
    if !ok || !s1.has_client then (s1, backend, false)
    else
      match backend with
      | Option.none => (s1, backend, false)
      | Option.some store =>
        let ckey := makeKey s1 key
        (s1, Option.some (store.filter (fun e => !(e.key == ckey))),
         store.any (fun e => e.key == ckey))

/-- CacheService.exists: false when unavailable or on any backend error. -/
def cacheExists (s : CacheState) (backend : RedisBackend) (key : String) :
    CacheState × Bool :=
  match ensureConnection s backend with
  | (s1, ok) =>
    if !ok || !s1.has_client then (s1, false)
    else
      match backend with
      | Option.none => (s1, false)
      | Option.some store => (s1, store.any (fun e => e.key == makeKey s1 key))

/-- Redis glob matching restricted to the * wildcard, as KEYS uses it here. -/
def globMatch : List Char → List Char → Bool
  | [], [] => true
  | '*' :: ps, [] => globMatch ps []
  | '*' :: ps, c :: cs => globMatch ps (c :: cs) || globMatch ('*' :: ps) cs
  | _ :: _, [] => false
  | p :: ps, c :: cs => p == c && globMatch ps cs
  | [], _ :: _ => false

/-- CacheService.clear_pattern: 0 when unavailable or on any backend error,
else delete the keys matching the namespaced pattern and report the count. -/
def cacheClearPattern (s : CacheState) (backend : RedisBackend) (pat : String) :
    CacheState × RedisBackend × Nat :=
  match ensureConnection s backend with
  | (s1, ok) =>
    if !ok || !s1.has_client then (s1, backend, 0)
    else
      match backend with
      | Option.none => (s1, backend, 0)
      | Option.some store =>
        let cpat := (makeKey s1 pat).toList
        let matched := store.filter (fun e => globMatch cpat e.key.toList)
        if matched.isEmpty then (s1, Option.some store, 0)
        else
          (s1, Option.some (store.filter (fun e => !(globMatch cpat e.key.toList))),
           matched.length)

/-- C9: whenever the backend is unreachable (every command errors) or no
backend URL is configured, every cache operation succeeds as a no-op with its
neutral value: get misses with None, set returns false, delete returns false,
exists returns false, and clear returns 0. -/
theorem C9_degraded_noop (s : CacheState) (backend : RedisBackend)
    (key : String) (value : PyVal) (ttl : Option Int) (cache_type : String)
    (pat : String)
    (h : backend = Option.none ∨ (s.redis_url = Option.none ∧ s.is_available = false)) :
    (cacheGet s backend key).2 = Option.none ∧
    (cacheSet s backend key value ttl cache_type).2.2 = false ∧
    (cacheDelete s backend key).2.2 = false ∧
    (cacheExists s backend key).2 = false ∧
    (cacheClearPattern s backend pat).2.2 = 0 := by
  rcases h with hb | ⟨hurl, havail⟩
  · subst hb
    refine ⟨?_, ?_, ?_, ?_, ?_⟩
    · unfold cacheGet
      split
      split <;> rfl
    · unfold cacheSet
      split
      split <;> rfl
    · unfold cacheDelete
      split
      split <;> rfl
    · unfold cacheExists
      split
      split <;> rfl
    · unfold cacheClearPattern
      split
      split <;> rfl
  · have hens : ensureConnection s backend = (s, false) := by
      unfold ensureConnection cacheStart
      rw [havail, hurl]
      split <;> simp
    refine ⟨?_, ?_, ?_, ?_, ?_⟩
    · unfold cacheGet
      rw [hens]
      simp
    · unfold cacheSet
      rw [hens]
      simp
    · unfold cacheDelete
      rw [hens]
      simp
    · unfold cacheExists
      rw [hens]
      simp
    · unfold cacheClearPattern
      rw [hens]
      simp

def cacheS0 : CacheState :=
  { redis_url := Option.none, keyPrefix := "mexc", is_available := false,
    connection_attempts := 0, has_client := false }

/-- Witness for C9 on an unconfigured, never-connected service. -/
theorem C9_degraded_noop_witness :
    (cacheGet cacheS0 Option.none "k").2 = Option.none ∧
    (cacheSet cacheS0 Option.none "k" (PyVal.str "v") Option.none "symbols").2.2 = false ∧
    (cacheDelete cacheS0 Option.none "k").2.2 = false ∧
    (cacheExists cacheS0 Option.none "k").2 = false ∧
    (cacheClearPattern cacheS0 Option.none "*").2.2 = 0 :=
  C9_degraded_noop cacheS0 Option.none "k" (PyVal.str "v") Option.none "symbols" "*"
    (Or.inl rfl)

/-- The fixed upstream responses during a cycle: the calendar feed and the
symbolsV2 feed (get_symbols_v2 filters the latter client-side by cd). -/
structure Upstream where
  calendar : List CalendarEntryApi
  symbols : List SymbolV2EntryApi
deriving DecidableEq, Repr

/-- MexcApiClient.get_symbols_v2 with a vcoin_id filter. -/
def get_symbols_v2 (up : Upstream) (vcoin_id : String) : List SymbolV2EntryApi :=
  up.symbols.filter (fun s => s.cd == vcoin_id)

/-- database.create_monitored_listing for one calendar entry. -/
def create_monitored_listing (db : DbState) (entry : CalendarEntryApi) : DbState :=
  { db with
    listings := db.listings ++
      [{ vcoin_id := entry.vcoinId, symbol_name := entry.symbol,
         project_name := entry.projectName,
         announced_launch_time_ms := entry.firstOpenTime,
         announced_launch_datetime_utc := entry.launch_datetime,
         status := "monitoring" }] }

/-- Per-entry body of _check_calendar_for_new_listings: skip past entries and
already-monitored vcoins, create the rest, counting creations. -/
def calStep (now : ℚ) (acc : DbState × Nat) (entry : CalendarEntryApi) :
    DbState × Nat :=
  if entry.launch_datetime ≤ now then acc
  else
    match get_monitored_listing acc.1 entry.vcoinId with
    | Option.some _ => acc
    | Option.none => (create_monitored_listing acc.1 entry, acc.2 + 1)

/-- PatternDiscoveryEngine._check_calendar_for_new_listings. -/
def checkCalendar (db : DbState) (now : ℚ) (up : Upstream) : DbState × Nat :=
  up.calendar.foldl (calStep now) (db, 0)

/-- Per-symbol body of the ready-state scan: on the ready pattern with
complete data run the ready-target policy, counting successful creations. -/
def monStep (now : ℚ) (listing : MonitoredListing) (acc2 : DbState × Nat)
    (symbol : SymbolV2EntryApi) : DbState × Nat :=
  if symbol.matches_ready_pattern settings.READY_STATE_PATTERN
      && symbol.has_complete_data then
    match createReadyTarget acc2.1 now listing symbol with
    | (db1, Option.some _) => (db1, acc2.2 + 1)
    | (db1, Option.none) => (db1, acc2.2)
  else acc2

/-- Per-listing body of _monitor_listings_for_ready_state: walk the filtered
symbols. -/
def monitorListing (now : ℚ) (up : Upstream) (acc : DbState × Nat)
    (listing : MonitoredListing) : DbState × Nat :=
  (get_symbols_v2 up listing.vcoin_id).foldl (monStep now listing) acc

/-- PatternDiscoveryEngine._monitor_listings_for_ready_state: fold the
per-listing body over the snapshot of monitoring listings. -/
def monitorListings (db : DbState) (now : ℚ) (up : Upstream) : DbState × Nat :=
  (get_monitoring_listings db).foldl (monitorListing now up) (db, 0)

/-- PatternDiscoveryEngine.run_discovery_cycle's result counters. -/
structure PatternDiscoveryResult where
  new_listings_found : Nat
  ready_targets_found : Nat
  targets_scheduled : Nat
deriving DecidableEq, Repr

/-- PatternDiscoveryEngine.run_discovery_cycle: calendar ingest, ready-state
scan, then scheduling, sequentially on the shared store. -/
def runDiscoveryCycle (db : DbState) (now : ℚ) (up : Upstream) :
    DbState × PatternDiscoveryResult :=
  match checkCalendar db now up with
  | (db1, newL) =>
    match monitorListings db1 now up with
    | (db2, ready) =>
      match scheduleReadyTargets db2 now with
      | (db3, sched) =>
        (db3, { new_listings_found := newL, ready_targets_found := ready,
                targets_scheduled := sched })

/-- A target row for this vcoin exists. -/
def hasTarget (db : DbState) (v : String) : Prop :=
  (get_snipe_target db v).isSome = true

/-- A listing row for this vcoin exists. -/
def hasListing (db : DbState) (v : String) : Prop :=
  (get_monitored_listing db v).isSome = true

/-- Every vcoin with a target in the first store has one in the second. -/
def targetsSuperset (db db' : DbState) : Prop :=
  ∀ v, hasTarget db v → hasTarget db' v

/-- The ready-target policy declines to create a target here. -/
def blockedP (db : DbState) (now : ℚ) (listing : MonitoredListing)
    (symbol : SymbolV2EntryApi) : Prop :=
  (createReadyTarget db now listing symbol).2 = Option.none

/-- The scan guard: ready pattern matched and data complete. -/
def readyComplete (s : SymbolV2EntryApi) : Bool :=
  s.matches_ready_pattern settings.READY_STATE_PATTERN && s.has_complete_data

section GenericListLemmas

theorem find?_isSome_map_of_preserve {α : Type} (f : α → α) (q : α → Bool)
    (hq : ∀ x, q (f x) = q x) (l : List α) :
    ((l.map f).find? q).isSome = (l.find? q).isSome := by
  rw [List.find?_map]
  have hcomp : (q ∘ f) = q := funext hq
  rw [hcomp]
  cases l.find? q <;> simp

theorem find?_isSome_append {α : Type} (q : α → Bool) (l1 l2 : List α) :
    ((l1 ++ l2).find? q).isSome = ((l1.find? q).isSome || (l2.find? q).isSome) := by
  induction l1 with
  | nil => simp
  | cons a t ih =>
    by_cases h : q a
    · rw [List.cons_append, List.find?_cons_of_pos _ h, List.find?_cons_of_pos _ h]
      simp
    · rw [List.cons_append, List.find?_cons_of_neg _ (by simp [h]),
        List.find?_cons_of_neg _ (by simp [h]), ih]

end GenericListLemmas

section CycleLemmas

theorem markListingReady_targets (db : DbState) (v : String) :
    (markListingReady db v).targets = db.targets := rfl

theorem update_snipe_target_status_listings (db : DbState) (tid : Nat) (st : String) :
    (update_snipe_target_status db tid st).listings = db.listings := rfl

/-- Shape analysis of the ready-target policy: it either leaves the store
unchanged and returns no target, or appends one target for the listing's
vcoin and marks the listing ready. -/
theorem createReadyTarget_cases (db : DbState) (now : ℚ) (l : MonitoredListing)
    (s : SymbolV2EntryApi) :
    createReadyTarget db now l s = (db, Option.none) ∨
    ∃ t, createReadyTarget db now l s =
        (markListingReady
          { db with targets := db.targets ++ [t], nextTargetId := db.nextTargetId + 1 }
          l.vcoin_id, Option.some t)
      ∧ t.vcoin_id = l.vcoin_id := by
  simp only [createReadyTarget]
  split
  · exact Or.inl rfl
  · split
    · exact Or.inl rfl
    · split
      · exact Or.inl rfl
      · split
        · exact Or.inl rfl
        · exact Or.inr ⟨_, rfl, rfl⟩

theorem createReadyTarget_none_fst (db : DbState) (now : ℚ) (l : MonitoredListing)
    (s : SymbolV2EntryApi) (h : (createReadyTarget db now l s).2 = Option.none) :
    (createReadyTarget db now l s).1 = db := by
  rcases createReadyTarget_cases db now l s with hc | ⟨t, hc, -⟩
  · rw [hc]
  · rw [hc] at h
    simp at h

theorem hasTarget_createReadyTarget (db : DbState) (now : ℚ) (l : MonitoredListing)
    (s : SymbolV2EntryApi) (v : String) (h : hasTarget db v) :
    hasTarget (createReadyTarget db now l s).1 v := by
  rcases createReadyTarget_cases db now l s with hc | ⟨t, hc, -⟩
  · rw [hc]
    exact h
  · rw [hc]
    unfold hasTarget get_snipe_target at *
    rw [markListingReady_targets]
    show (((db.targets ++ [t]).find? (fun x => x.vcoin_id == v)).isSome) = true
    rw [find?_isSome_append]
    simp [h]

theorem createReadyTarget_some_hasTarget (db : DbState) (now : ℚ)
    (l : MonitoredListing) (s : SymbolV2EntryApi)
    (h : (createReadyTarget db now l s).2.isSome = true) :
    hasTarget (createReadyTarget db now l s).1 l.vcoin_id := by
  rcases createReadyTarget_cases db now l s with hc | ⟨t, hc, hv⟩
  · rw [hc] at h
    simp at h
  · rw [hc]
    unfold hasTarget get_snipe_target
    rw [markListingReady_targets]
    show (((db.targets ++ [t]).find? (fun x => x.vcoin_id == l.vcoin_id)).isSome) = true
    rw [find?_isSome_append]
    have : (t.vcoin_id == l.vcoin_id) = true := by simp [hv]
    simp [List.find?, this]

theorem hasListing_markListingReady (db : DbState) (v w : String) :
    hasListing (markListingReady db v) w ↔ hasListing db w := by
  unfold hasListing get_monitored_listing markListingReady
  rw [find?_isSome_map_of_preserve]
  intro x
  split <;> rfl

theorem hasListing_createReadyTarget (db : DbState) (now : ℚ) (l : MonitoredListing)
    (s : SymbolV2EntryApi) (w : String) (h : hasListing db w) :
    hasListing (createReadyTarget db now l s).1 w := by
  rcases createReadyTarget_cases db now l s with hc | ⟨t, hc, -⟩
  · rw [hc]
    exact h
  · rw [hc]
    show hasListing (markListingReady _ l.vcoin_id) w
    rw [hasListing_markListingReady]
    exact h

theorem mem_markListingReady_monitoring (db : DbState) (v : String)
    (l : MonitoredListing) (hl : l ∈ (markListingReady db v).listings)
    (hm : l.status = "monitoring") : l ∈ db.listings := by
  unfold markListingReady at hl
  simp only [List.mem_map] at hl
  obtain ⟨x, hx, hfx⟩ := hl
  by_cases hveq : (x.vcoin_id == v) = true
  · rw [if_pos hveq] at hfx
    rw [← hfx] at hm
    simp at hm
  · rw [if_neg hveq] at hfx
    rw [← hfx]
    exact hx

theorem mem_createReadyTarget_monitoring (db : DbState) (now : ℚ)
    (lst : MonitoredListing) (s : SymbolV2EntryApi) (l : MonitoredListing)
    (hl : l ∈ (createReadyTarget db now lst s).1.listings)
    (hm : l.status = "monitoring") : l ∈ db.listings := by
  rcases createReadyTarget_cases db now lst s with hc | ⟨t, hc, -⟩
  · rw [hc] at hl
    exact hl
  · rw [hc] at hl
    exact mem_markListingReady_monitoring _ _ _ hl hm

end CycleLemmas

section BlockedLemmas

theorem createReadyTarget_of_existing (db : DbState) (now : ℚ) (l : MonitoredListing)
    (s : SymbolV2EntryApi) (h : (get_snipe_target db l.vcoin_id).isSome = true) :
    createReadyTarget db now l s = (db, Option.none) := by
  rcases hx : get_snipe_target db l.vcoin_id with _ | t
  · rw [hx] at h
    simp at h
  · simp [createReadyTarget, hx]

theorem createReadyTarget_of_launch_none (db : DbState) (now : ℚ)
    (l : MonitoredListing) (s : SymbolV2EntryApi)
    (h : s.launch_datetime_from_ot = Option.none) :
    createReadyTarget db now l s = (db, Option.none) := by
  rcases hx : get_snipe_target db l.vcoin_id with _ | t
  · simp [createReadyTarget, hx, h]
  · simp [createReadyTarget, hx]

theorem createReadyTarget_of_low_advance (db : DbState) (now : ℚ)
    (l : MonitoredListing) (s : SymbolV2EntryApi) (alt : ℚ)
    (hx : get_snipe_target db l.vcoin_id = Option.none)
    (halt : s.launch_datetime_from_ot = Option.some alt)
    (hlow : (alt - now) / 3600 < settings.TARGET_ADVANCE_HOURS) :
    createReadyTarget db now l s = (db, Option.none) := by
  simp only [createReadyTarget, hx, halt]
  rw [if_pos hlow]

theorem createReadyTarget_of_guard (db : DbState) (now : ℚ)
    (l : MonitoredListing) (s : SymbolV2EntryApi) (alt : ℚ)
    (hx : get_snipe_target db l.vcoin_id = Option.none)
    (halt : s.launch_datetime_from_ot = Option.some alt)
    (hhigh : ¬((alt - now) / 3600 < settings.TARGET_ADVANCE_HOURS))
    (hg : (!(pyTruthyStr s.ca) || s.ps.isNone || s.qs.isNone || s.ot.isNone) = true) :
    createReadyTarget db now l s = (db, Option.none) := by
  simp only [createReadyTarget, hx, halt]
  rw [if_neg hhigh, if_pos hg]

theorem createReadyTarget_of_success (db : DbState) (now : ℚ)
    (l : MonitoredListing) (s : SymbolV2EntryApi) (alt : ℚ)
    (hx : get_snipe_target db l.vcoin_id = Option.none)
    (halt : s.launch_datetime_from_ot = Option.some alt)
    (hhigh : ¬((alt - now) / 3600 < settings.TARGET_ADVANCE_HOURS))
    (hg : (!(pyTruthyStr s.ca) || s.ps.isNone || s.qs.isNone || s.ot.isNone) = false) :
    (createReadyTarget db now l s).2.isSome = true := by
  simp only [createReadyTarget, hx, halt]
  rw [if_neg hhigh, if_neg (by rw [hg]; simp)]
  simp

/-- Blockedness of the ready-target policy is preserved when time moves
forward and targets only accumulate. -/
theorem blocked_mono (db db' : DbState) (now now' : ℚ) (l : MonitoredListing)
    (s : SymbolV2EntryApi) (hn : now ≤ now') (hts : targetsSuperset db db')
    (hb : blockedP db now l s) : blockedP db' now' l s := by
  unfold blockedP at *
  by_cases hex' : (get_snipe_target db' l.vcoin_id).isSome = true
  · rw [createReadyTarget_of_existing db' now' l s hex']
  · have hex : get_snipe_target db l.vcoin_id = Option.none := by
      by_contra hc
      exact hex' (hts _ (Option.ne_none_iff_isSome.mp hc))
    have hex'n : get_snipe_target db' l.vcoin_id = Option.none := by
      rcases hgg : get_snipe_target db' l.vcoin_id with _ | t
      · rfl
      · rw [hgg] at hex'
        simp at hex'
    cases halt : s.launch_datetime_from_ot with
    | none => rw [createReadyTarget_of_launch_none db' now' l s halt]
    | some alt =>
      by_cases hlow' : (alt - now') / 3600 < settings.TARGET_ADVANCE_HOURS
      · rw [createReadyTarget_of_low_advance db' now' l s alt hex'n halt hlow']
      · have hlow : ¬((alt - now) / 3600 < settings.TARGET_ADVANCE_HOURS) := by
          intro hcon
          apply hlow'
          have hsub : alt - now' ≤ alt - now := by linarith
          have hdiv : (alt - now') / 3600 ≤ (alt - now) / 3600 :=
            (div_le_div_iff_of_pos_right (by norm_num : (0:ℚ) < 3600)).mpr hsub
          linarith
        by_cases hg : (!(pyTruthyStr s.ca) || s.ps.isNone || s.qs.isNone
            || s.ot.isNone) = true
        · rw [createReadyTarget_of_guard db' now' l s alt hex'n halt hlow' hg]
        · have hgf : (!(pyTruthyStr s.ca) || s.ps.isNone || s.qs.isNone
              || s.ot.isNone) = false := by
            rcases hb2 : (!(pyTruthyStr s.ca) || s.ps.isNone || s.qs.isNone
              || s.ot.isNone) with _ | _
            · rfl
            · exact absurd hb2 hg
          have hsucc := createReadyTarget_of_success db now l s alt hex halt hlow hgf
          rw [hb] at hsucc
          simp at hsucc

end BlockedLemmas

section CalendarLemmas

theorem hasListing_create_self (db : DbState) (e : CalendarEntryApi) :
    hasListing (create_monitored_listing db e) e.vcoinId := by
  unfold hasListing get_monitored_listing create_monitored_listing
  rw [find?_isSome_append]
  simp [List.find?]

theorem hasListing_create_mono (db : DbState) (e : CalendarEntryApi) (v : String)
    (h : hasListing db v) : hasListing (create_monitored_listing db e) v := by
  unfold hasListing get_monitored_listing create_monitored_listing at *
  rw [find?_isSome_append]
  simp [h]

theorem hasListing_calStep (now : ℚ) (acc : DbState × Nat) (e : CalendarEntryApi)
    (v : String) (h : hasListing acc.1 v) : hasListing (calStep now acc e).1 v := by
  unfold calStep
  split
  · exact h
  · split
    · exact h
    · exact hasListing_create_mono _ _ _ h

theorem hasListing_foldl_calStep (now : ℚ) :
    ∀ (l : List CalendarEntryApi) (acc : DbState × Nat) (v : String),
      hasListing acc.1 v → hasListing (l.foldl (calStep now) acc).1 v := by
  intro l
  induction l with
  | nil => intro acc v h; exact h
  | cons a t ih =>
    intro acc v h
    rw [List.foldl_cons]
    exact ih _ v (hasListing_calStep now acc a v h)

theorem checkCalendar_covers (db : DbState) (now : ℚ) (up : Upstream) :
    ∀ e ∈ up.calendar, now < e.launch_datetime →
      hasListing (checkCalendar db now up).1 e.vcoinId := by
  unfold checkCalendar
  generalize (db, 0) = acc
  induction up.calendar generalizing acc with
  | nil => intro e he; exact absurd he (List.not_mem_nil e)
  | cons a t ih =>
    intro e he hfut
    rw [List.foldl_cons]
    rcases List.mem_cons.mp he with rfl | hmem
    · apply hasListing_foldl_calStep
      unfold calStep
      split
      · rename_i hpast
        exact absurd hfut (not_lt.mpr hpast)
      · split
        · rename_i l hl
          show hasListing acc.1 e.vcoinId
          unfold hasListing
          rw [hl]
          rfl
        · exact hasListing_create_self _ _
    · exact ih _ e hmem hfut

theorem checkCalendar_noop (db : DbState) (now : ℚ) (up : Upstream)
    (h : ∀ e ∈ up.calendar, now < e.launch_datetime → hasListing db e.vcoinId) :
    checkCalendar db now up = (db, 0) := by
  unfold checkCalendar
  have hgen : ∀ (l : List CalendarEntryApi),
      (∀ e ∈ l, now < e.launch_datetime → hasListing db e.vcoinId) →
      l.foldl (calStep now) (db, 0) = (db, 0) := by
    intro l
    induction l with
    | nil => intro _; rfl
    | cons a t ih =>
      intro hl
      rw [List.foldl_cons]
      have hstep : calStep now (db, 0) a = (db, 0) := by
        unfold calStep
        split
        · rfl
        · rename_i hfut
          have ha := hl a (List.mem_cons_self a t) (not_le.mp hfut)
          unfold hasListing at ha
          rcases hget : get_monitored_listing db a.vcoinId with _ | l0
          · rw [hget] at ha
            simp at ha
          · simp only [hget]
      rw [hstep]
      exact ih (fun e he => hl e (List.mem_cons_of_mem a he))
  exact hgen up.calendar h

end CalendarLemmas

section PreservationLemmas

theorem updTarget_vcoin (tid : Nat) (st : String) (t : SnipeTarget) :
    (updTarget tid st t).vcoin_id = t.vcoin_id := by
  unfold updTarget
  split <;> rfl

theorem hasTarget_update (db : DbState) (tid : Nat) (st : String) (v : String) :
    hasTarget (update_snipe_target_status db tid st) v ↔ hasTarget db v := by
  unfold hasTarget get_snipe_target update_snipe_target_status
  rw [find?_isSome_map_of_preserve (updTarget tid st) _ (fun x => by rw [updTarget_vcoin])]

theorem schedStep_listings (now : ℚ) (acc : DbState × Nat) (t : SnipeTarget) :
    (schedStep now acc t).1.listings = acc.1.listings := by
  unfold schedStep
  split
  · rfl
  · split
    · split <;> rfl
    · rfl

theorem hasTarget_schedStep (now : ℚ) (acc : DbState × Nat) (t : SnipeTarget)
    (v : String) (h : hasTarget acc.1 v) : hasTarget (schedStep now acc t).1 v := by
  unfold schedStep
  split
  · exact h
  · split
    · split
      · exact (hasTarget_update _ _ _ _).mpr h
      · exact (hasTarget_update _ _ _ _).mpr h
    · exact h

theorem foldl_schedStep_listings (now : ℚ) :
    ∀ (l : List SnipeTarget) (acc : DbState × Nat),
      (l.foldl (schedStep now) acc).1.listings = acc.1.listings := by
  intro l
  induction l with
  | nil => intro acc; rfl
  | cons a t ih =>
    intro acc
    rw [List.foldl_cons, ih, schedStep_listings]

theorem scheduleReadyTargets_listings (db : DbState) (now : ℚ) :
    (scheduleReadyTargets db now).1.listings = db.listings := by
  unfold scheduleReadyTargets
  rw [foldl_schedStep_listings]

theorem foldl_schedStep_hasTarget (now : ℚ) :
    ∀ (l : List SnipeTarget) (acc : DbState × Nat) (v : String),
      hasTarget acc.1 v → hasTarget (l.foldl (schedStep now) acc).1 v := by
  intro l
  induction l with
  | nil => intro acc v h; exact h
  | cons a t ih =>
    intro acc v h
    rw [List.foldl_cons]
    exact ih _ v (hasTarget_schedStep now acc a v h)

theorem scheduleReadyTargets_targetsSuperset (db : DbState) (now : ℚ) :
    targetsSuperset db (scheduleReadyTargets db now).1 := by
  intro v h
  unfold scheduleReadyTargets
  exact foldl_schedStep_hasTarget now _ (db, 0) v h

theorem targetsSuperset_monStep (now : ℚ) (L : MonitoredListing)
    (acc : DbState × Nat) (s : SymbolV2EntryApi) :
    targetsSuperset acc.1 (monStep now L acc s).1 := by
  intro v hv
  unfold monStep
  split
  · rcases hcr : createReadyTarget acc.1 now L s with ⟨db1, o⟩
    have h1 : hasTarget db1 v := by
      have h2 := hasTarget_createReadyTarget acc.1 now L s v hv
      rw [hcr] at h2
      exact h2
    cases o
    · simp only [hcr]
      exact h1
    · simp only [hcr]
      exact h1
  · exact hv

theorem hasListing_monStep (now : ℚ) (L : MonitoredListing)
    (acc : DbState × Nat) (s : SymbolV2EntryApi) (v : String)
    (h : hasListing acc.1 v) : hasListing (monStep now L acc s).1 v := by
  unfold monStep
  split
  · rcases hcr : createReadyTarget acc.1 now L s with ⟨db1, o⟩
    have h1 : hasListing db1 v := by
      have h2 := hasListing_createReadyTarget acc.1 now L s v h
      rw [hcr] at h2
      exact h2
    cases o
    · simp only [hcr]
      exact h1
    · simp only [hcr]
      exact h1
  · exact h

theorem mem_monStep_monitoring (now : ℚ) (L : MonitoredListing)
    (acc : DbState × Nat) (s : SymbolV2EntryApi) (l : MonitoredListing)
    (hl : l ∈ (monStep now L acc s).1.listings) (hm : l.status = "monitoring") :
    l ∈ acc.1.listings := by
  unfold monStep at hl
  split at hl
  · rcases hcr : createReadyTarget acc.1 now L s with ⟨db1, o⟩
    rw [hcr] at hl
    cases o
    · simp only at hl
      have := mem_createReadyTarget_monitoring acc.1 now L s l (by rw [hcr]; exact hl) hm
      exact this
    · simp only at hl
      exact mem_createReadyTarget_monitoring acc.1 now L s l (by rw [hcr]; exact hl) hm
  · exact hl

theorem foldl_monStep_targetsSuperset (now : ℚ) (L : MonitoredListing) :
    ∀ (ss : List SymbolV2EntryApi) (acc : DbState × Nat),
      targetsSuperset acc.1 ((ss.foldl (monStep now L) acc).1) := by
  intro ss
  induction ss with
  | nil => intro acc v h; exact h
  | cons a t ih =>
    intro acc v h
    rw [List.foldl_cons]
    exact ih _ v (targetsSuperset_monStep now L acc a v h)

theorem foldl_monStep_hasListing (now : ℚ) (L : MonitoredListing) :
    ∀ (ss : List SymbolV2EntryApi) (acc : DbState × Nat) (v : String),
      hasListing acc.1 v → hasListing ((ss.foldl (monStep now L) acc).1) v := by
  intro ss
  induction ss with
  | nil => intro acc v h; exact h
  | cons a t ih =>
    intro acc v h
    rw [List.foldl_cons]
    exact ih _ v (hasListing_monStep now L acc a v h)

theorem foldl_monStep_mem_monitoring (now : ℚ) (L : MonitoredListing) :
    ∀ (ss : List SymbolV2EntryApi) (acc : DbState × Nat) (l : MonitoredListing),
      l ∈ ((ss.foldl (monStep now L) acc).1).listings → l.status = "monitoring" →
      l ∈ acc.1.listings := by
  intro ss
  induction ss with
  | nil => intro acc l h _; exact h
  | cons a t ih =>
    intro acc l h hm
    rw [List.foldl_cons] at h
    exact mem_monStep_monitoring now L acc a l (ih _ l h hm) hm

theorem targetsSuperset_monitorListing (now : ℚ) (up : Upstream)
    (acc : DbState × Nat) (L : MonitoredListing) :
    targetsSuperset acc.1 (monitorListing now up acc L).1 := by
  intro v h
  unfold monitorListing
  exact foldl_monStep_targetsSuperset now L _ acc v h

theorem foldl_monitorListing_targetsSuperset (now : ℚ) (up : Upstream) :
    ∀ (ms : List MonitoredListing) (acc : DbState × Nat),
      targetsSuperset acc.1 ((ms.foldl (monitorListing now up) acc).1) := by
  intro ms
  induction ms with
  | nil => intro acc v h; exact h
  | cons a t ih =>
    intro acc v h
    rw [List.foldl_cons]
    exact ih _ v (targetsSuperset_monitorListing now up acc a v h)

theorem foldl_monitorListing_hasListing (now : ℚ) (up : Upstream) :
    ∀ (ms : List MonitoredListing) (acc : DbState × Nat) (v : String),
      hasListing acc.1 v → hasListing ((ms.foldl (monitorListing now up) acc).1) v := by
  intro ms
  induction ms with
  | nil => intro acc v h; exact h
  | cons a t ih =>
    intro acc v h
    rw [List.foldl_cons]
    apply ih
    unfold monitorListing
    exact foldl_monStep_hasListing now a _ acc v h

theorem foldl_monitorListing_mem_monitoring (now : ℚ) (up : Upstream) :
    ∀ (ms : List MonitoredListing) (acc : DbState × Nat) (l : MonitoredListing),
      l ∈ ((ms.foldl (monitorListing now up) acc).1).listings →
      l.status = "monitoring" → l ∈ acc.1.listings := by
  intro ms
  induction ms with
  | nil => intro acc l h _; exact h
  | cons a t ih =>
    intro acc l h hm
    rw [List.foldl_cons] at h
    have h2 := ih _ l h hm
    unfold monitorListing at h2
    exact foldl_monStep_mem_monitoring now a _ acc l h2 hm

end PreservationLemmas

section ScanBlockingLemmas

theorem monStep_blocks_self (now : ℚ) (L : MonitoredListing)
    (acc : DbState × Nat) (s : SymbolV2EntryApi) (hrc : readyComplete s = true) :
    blockedP (monStep now L acc s).1 now L s := by
  unfold readyComplete at hrc
  unfold monStep
  rw [if_pos hrc]
  rcases hcr : createReadyTarget acc.1 now L s with ⟨db1, o⟩
  cases o with
  | none =>
    simp only [hcr]
    have hfst := createReadyTarget_none_fst acc.1 now L s (by rw [hcr])
    rw [hcr] at hfst
    simp only at hfst
    rw [hfst]
    unfold blockedP
    rw [hcr]
  | some t =>
    simp only [hcr]
    have hht : hasTarget db1 L.vcoin_id := by
      have h2 := createReadyTarget_some_hasTarget acc.1 now L s (by rw [hcr]; rfl)
      rw [hcr] at h2
      exact h2
    unfold blockedP
    rw [createReadyTarget_of_existing db1 now L s hht]

theorem foldl_monStep_blocks (now : ℚ) (L : MonitoredListing) :
    ∀ (ss : List SymbolV2EntryApi) (acc : DbState × Nat),
      ∀ s ∈ ss, readyComplete s = true →
        blockedP ((ss.foldl (monStep now L) acc).1) now L s := by
  intro ss
  induction ss with
  | nil => intro acc s hs; exact absurd hs (List.not_mem_nil s)
  | cons a t ih =>
    intro acc s hs hrc
    rw [List.foldl_cons]
    rcases List.mem_cons.mp hs with rfl | hmem
    · exact blocked_mono _ _ now now L s (le_refl now)
        (foldl_monStep_targetsSuperset now L t _)
        (monStep_blocks_self now L acc s hrc)
    · exact ih _ s hmem hrc

theorem foldl_monitorListing_blocks (now : ℚ) (up : Upstream) :
    ∀ (ms : List MonitoredListing) (acc : DbState × Nat),
      ∀ L ∈ ms, ∀ s ∈ get_symbols_v2 up L.vcoin_id, readyComplete s = true →
        blockedP ((ms.foldl (monitorListing now up) acc).1) now L s := by
  intro ms
  induction ms with
  | nil => intro acc L hL; exact absurd hL (List.not_mem_nil L)
  | cons a t ih =>
    intro acc L hL s hs hrc
    rw [List.foldl_cons]
    rcases List.mem_cons.mp hL with rfl | hmem
    · refine blocked_mono _ _ now now L s (le_refl now)
        (foldl_monitorListing_targetsSuperset now up t _) ?_
      unfold monitorListing
      exact foldl_monStep_blocks now L _ acc s hs hrc
    · exact ih _ L hmem s hs hrc

theorem foldl_monStep_noop (now : ℚ) (L : MonitoredListing) (db : DbState) (k : Nat) :
    ∀ (ss : List SymbolV2EntryApi),
      (∀ s ∈ ss, readyComplete s = true → blockedP db now L s) →
      ss.foldl (monStep now L) (db, k) = (db, k) := by
  intro ss
  induction ss with
  | nil => intro _; rfl
  | cons a t ih =>
    intro h
    rw [List.foldl_cons]
    have hstep : monStep now L (db, k) a = (db, k) := by
      by_cases hrc : readyComplete a = true
      · have hb := h a (List.mem_cons_self a t) hrc
        unfold blockedP at hb
        have hfst := createReadyTarget_none_fst db now L a hb
        have hpair : createReadyTarget db now L a = (db, Option.none) := by
          rw [Prod.ext_iff]
          exact ⟨hfst, hb⟩
        unfold readyComplete at hrc
        unfold monStep
        rw [if_pos hrc]
        simp only [hpair]
      · have hrcf : (a.matches_ready_pattern settings.READY_STATE_PATTERN
            && a.has_complete_data) = false := by
          unfold readyComplete at hrc
          rcases hx : (a.matches_ready_pattern settings.READY_STATE_PATTERN
            && a.has_complete_data) with _ | _
          · rfl
          · exact absurd hx hrc
        unfold monStep
        rw [if_neg (by simp [hrcf])]
    rw [hstep]
    exact ih (fun s hsm => h s (List.mem_cons_of_mem a hsm))

theorem foldl_monitorListing_noop (now : ℚ) (up : Upstream) (db : DbState) :
    ∀ (ms : List MonitoredListing) (k : Nat),
      (∀ L ∈ ms, ∀ s ∈ get_symbols_v2 up L.vcoin_id, readyComplete s = true →
        blockedP db now L s) →
      ms.foldl (monitorListing now up) (db, k) = (db, k) := by
  intro ms
  induction ms with
  | nil => intro k _; rfl
  | cons a t ih =>
    intro k h
    rw [List.foldl_cons]
    have hstep : monitorListing now up (db, k) a = (db, k) := by
      unfold monitorListing
      exact foldl_monStep_noop now a db k _ (h a (List.mem_cons_self a t))
    rw [hstep]
    exact ih k (fun L hLm => h L (List.mem_cons_of_mem a hLm))

theorem monitorListings_noop (db : DbState) (now : ℚ) (up : Upstream)
    (h : ∀ L ∈ get_monitoring_listings db, ∀ s ∈ get_symbols_v2 up L.vcoin_id,
      readyComplete s = true → blockedP db now L s) :
    monitorListings db now up = (db, 0) := by
  unfold monitorListings
  exact foldl_monitorListing_noop now up db _ 0 h

theorem hasListing_of_listings_eq (db db' : DbState) (v : String)
    (h : db'.listings = db.listings) : hasListing db' v ↔ hasListing db v := by
  unfold hasListing get_monitored_listing
  rw [h]

end ScanBlockingLemmas

theorem runDiscoveryCycle_eq (db : DbState) (now : ℚ) (up : Upstream) :
    runDiscoveryCycle db now up =
      ((scheduleReadyTargets (monitorListings (checkCalendar db now up).1 now up).1 now).1,
       { new_listings_found := (checkCalendar db now up).2,
         ready_targets_found := (monitorListings (checkCalendar db now up).1 now up).2,
         targets_scheduled :=
           (scheduleReadyTargets (monitorListings (checkCalendar db now up).1 now up).1 now).2 }) :=
  rfl

/-- C5: with an unchanged upstream, running a second discovery cycle at any
later (or equal) time on top of the state left by the first produces zero new
listings and zero new targets. -/
theorem C5_second_cycle_idempotent (db : DbState) (up : Upstream) (now1 now2 : ℚ)
    (h12 : now1 ≤ now2) :
    (runDiscoveryCycle (runDiscoveryCycle db now1 up).1 now2 up).2.new_listings_found = 0 ∧
    (runDiscoveryCycle (runDiscoveryCycle db now1 up).1 now2 up).2.ready_targets_found = 0 := by
  obtain ⟨A, hA⟩ : ∃ A, (checkCalendar db now1 up).1 = A := ⟨_, rfl⟩
  obtain ⟨B, hB⟩ : ∃ B, (monitorListings A now1 up).1 = B := ⟨_, rfl⟩
  obtain ⟨C, hC⟩ : ∃ C, (scheduleReadyTargets B now1).1 = C := ⟨_, rfl⟩
  have hrun1 : (runDiscoveryCycle db now1 up).1 = C := by
    rw [runDiscoveryCycle_eq]
    dsimp only
    rw [hA, hB, hC]
  have hcov : ∀ e ∈ up.calendar, now2 < e.launch_datetime →
      hasListing C e.vcoinId := by
    intro e he hf
    have h1 : hasListing A e.vcoinId := by
      rw [← hA]
      exact checkCalendar_covers db now1 up e he (lt_of_le_of_lt h12 hf)
    have h2 : hasListing B e.vcoinId := by
      rw [← hB]
      unfold monitorListings
      exact foldl_monitorListing_hasListing now1 up _ (A, 0) _ h1
    rw [← hC]
    exact (hasListing_of_listings_eq B _ _ (scheduleReadyTargets_listings B now1)).mpr h2
  have hcal2 : checkCalendar C now2 up = (C, 0) := checkCalendar_noop C now2 up hcov
  have hblocked : ∀ L ∈ get_monitoring_listings C,
      ∀ s ∈ get_symbols_v2 up L.vcoin_id, readyComplete s = true →
      blockedP C now2 L s := by
    intro L hL s hs hrc
    obtain ⟨hmemC, hstatC⟩ := List.mem_filter.mp hL
    have hstat : L.status = "monitoring" := by
      simpa using hstatC
    have hmemB : L ∈ B.listings := by
      rw [← hC, scheduleReadyTargets_listings B now1] at hmemC
      exact hmemC
    have hmemA : L ∈ A.listings := by
      rw [← hB] at hmemB
      unfold monitorListings at hmemB
      exact foldl_monitorListing_mem_monitoring now1 up _ (A, 0) L hmemB hstat
    have hLms1 : L ∈ get_monitoring_listings A :=
      List.mem_filter.mpr ⟨hmemA, by simp [hstat]⟩
    have hb1 : blockedP B now1 L s := by
      rw [← hB]
      unfold monitorListings
      exact foldl_monitorListing_blocks now1 up _ (A, 0) L hLms1 s hs hrc
    have hsup : targetsSuperset B C := by
      rw [← hC]
      exact scheduleReadyTargets_targetsSuperset B now1
    exact blocked_mono B C now1 now2 L s h12 hsup hb1
  have hmon2 : monitorListings C now2 up = (C, 0) := monitorListings_noop C now2 up hblocked
  rw [hrun1, runDiscoveryCycle_eq]
  dsimp only
  constructor
  · rw [hcal2]
  · rw [hcal2]
    dsimp only
    rw [hmon2]

def wUpstream : Upstream :=
  { calendar := [{ vcoinId := "A", symbol := "AUSDT", projectName := "ProjA",
                   firstOpenTime := 100000000 }],
    symbols := [wSymbol] }

/-- Witness for C5 at a concrete upstream with one future listing whose
symbol is already ready and complete. -/
theorem C5_second_cycle_idempotent_witness :
    (runDiscoveryCycle (runDiscoveryCycle wDb 0 wUpstream).1 0 wUpstream).2.new_listings_found = 0 ∧
    (runDiscoveryCycle (runDiscoveryCycle wDb 0 wUpstream).1 0 wUpstream).2.ready_targets_found = 0 :=
  C5_second_cycle_idempotent wDb wUpstream 0 0 (le_refl 0)

set_option maxRecDepth 100000 in
/-- Sanity: on a fresh store, one cycle over this upstream creates one
listing, one target and schedules it; the idempotence of the second cycle is
therefore not vacuous. -/
theorem discovery_cycle_scenario_s1 :
    (runDiscoveryCycle wDb 0 wUpstream).2 =
      { new_listings_found := 1, ready_targets_found := 1, targets_scheduled := 1 } := by
  norm_num [runDiscoveryCycle, checkCalendar, calStep, get_monitored_listing,
    create_monitored_listing, monitorListings, get_monitoring_listings, monitorListing,
    monStep, get_symbols_v2, createReadyTarget, get_snipe_target,
    SymbolV2EntryApi.launch_datetime_from_ot, SymbolV2EntryApi.matches_ready_pattern,
    SymbolV2EntryApi.has_complete_data, markListingReady, scheduleReadyTargets,
    get_pending_snipe_targets, schedStep, update_snipe_target_status, updTarget,
    CalendarEntryApi.launch_datetime, pyTruthyStr, pyOrStr, pyOrInt,
    settings.TARGET_ADVANCE_HOURS, settings.READY_STATE_PATTERN,
    settings.DEFAULT_BUY_AMOUNT_USDT, wDb, wSymbol, wUpstream, readyComplete]
  simp
  norm_num [schedStep, update_snipe_target_status, updTarget]
